import Mathlib

/-!
Verification of the `logan-501` scoring core against its specification.

The definitions below are a shallow embedding of the Python sources under
`backend/app/scoring/`:

* `game.py`      — `Dart`, `VisitResult`, `PlayerMatchState`, `MatchConfig`,
                   `MatchState`, `Game501MatchTwoPlayer` (submit_visit / undo / reset)
* `checkout.py`  — `suggest_checkouts` and its ranking helpers
* `stats.py`     — `_accumulate` / `compute_match_stats`
* `dartboard.py` — pixel-to-score geometry (floats modelled as real numbers)

Python `int` values are modelled as `Int`, or as `Nat` where the source can
only ever produce non-negative values (dart values/multipliers, counters).
Python exceptions are modelled with `Except`: every `raise` in the source
happens before any mutation, so a raising call leaves the game unchanged.
-/

namespace Logan501

/-- `Dart` from `game.py`: a single dart hit.  `value`/`multiplier` are Python
ints; they are kept as `Nat` because every constructible `Dart` is validated
by `__post_init__` (negative inputs are rejected exactly like out-of-range
positive ones, see `Dart.valid`). -/
structure Dart where
  value : Nat
  multiplier : Nat
deriving DecidableEq, Repr

/-- `Dart.__post_init__`: multiplier ∈ {0,1,2,3}; multiplier 0 forces value 0;
otherwise value ∈ {1..20, 25}; no triple bull. -/
def Dart.valid (d : Dart) : Bool :=
  d.multiplier ≤ 3 &&
    (if d.multiplier == 0 then d.value == 0
     else ((1 ≤ d.value && d.value ≤ 20) || d.value == 25) &&
       !(d.value == 25 && d.multiplier == 3))

/-- `Dart.score` property: `value * multiplier`. -/
def Dart.score (d : Dart) : Nat := d.value * d.multiplier

/-- `Dart.is_double` property: `multiplier == 2 and value in (1..20, 25)`. -/
def Dart.isDouble (d : Dart) : Bool :=
  d.multiplier == 2 && ((1 ≤ d.value && d.value ≤ 20) || d.value == 25)

/-- `VisitResult` from `game.py`. -/
structure VisitResult where
  player_id : Nat
  darts : List Dart
  total : Nat
  bust : Bool
  checkout : Bool
  remaining_before : Int
  remaining_after : Int
deriving DecidableEq, Repr

/-- `PlayerMatchState` from `game.py`. -/
structure PlayerMatchState where
  player_id : Nat
  remaining : Int := 501
  legs_won : Nat := 0
  sets_won : Nat := 0
deriving DecidableEq, Repr

/-- `MatchConfig` from `game.py`. -/
structure MatchConfig where
  starting_score : Int := 501
  double_out : Bool := true
  legs_to_win_set : Nat := 3
  sets_to_win_match : Nat := 3
deriving DecidableEq, Repr

/-- `MatchConfig.__post_init__`: starting_score, legs_to_win_set and
sets_to_win_match must all be positive (a Python `MatchConfig` instance can
only exist when this holds). -/
def MatchConfig.valid (c : MatchConfig) : Bool :=
  0 < c.starting_score && 0 < c.legs_to_win_set && 0 < c.sets_to_win_match

/-- `MatchState` from `game.py`. -/
structure MatchState where
  config : MatchConfig
  players : PlayerMatchState × PlayerMatchState
  active_player_id : Nat := 1
  leg_starter_player_id : Nat := 1
  set_number : Nat := 1
  leg_number_in_set : Nat := 1
  winner_player_id : Option Nat := none
  last_leg_winner_player_id : Option Nat := none
  last_set_winner_player_id : Option Nat := none
  last_visit : Option VisitResult := none
  history : List VisitResult := []
deriving DecidableEq, Repr

/-- `MatchState.is_over`. -/
def MatchState.is_over (s : MatchState) : Bool := s.winner_player_id.isSome

/-- `_other_player_id`.  The source raises `ValueError` for ids outside {1,2};
that branch is unreachable (every player id the engine produces is 1 or 2),
so ids other than 1 are mapped like 2. -/
def other_player_id (player_id : Nat) : Nat :=
  if player_id = 1 then 2 else 1

/-- `_get_player` (same remark about the unreachable `ValueError` branch). -/
def get_player (players : PlayerMatchState × PlayerMatchState) (player_id : Nat) :
    PlayerMatchState :=
  if player_id = 1 then players.1 else players.2

/-- `_replace_player` (same remark about the unreachable `ValueError` branch). -/
def replace_player (players : PlayerMatchState × PlayerMatchState)
    (updated : PlayerMatchState) : PlayerMatchState × PlayerMatchState :=
  if updated.player_id = 1 then (updated, players.2) else (players.1, updated)

/-- The in-memory state of a `Game501MatchTwoPlayer` instance: the `_config`
and `_state` attributes plus the `_undo_stack` (most recent snapshot first;
Python appends/pops at the end of its list). -/
structure Game where
  config : MatchConfig
  state : MatchState
  undo_stack : List MatchState
deriving DecidableEq, Repr

/-- `Game501MatchTwoPlayer.__init__` (also run by `reset`): `config or
MatchConfig()`, fresh players on `starting_score`, empty history and stack. -/
def initGame (config : Option MatchConfig) : Game :=
  let cfg := config.getD {}
  { config := cfg
    state :=
      { config := cfg
        players := (⟨1, cfg.starting_score, 0, 0⟩, ⟨2, cfg.starting_score, 0, 0⟩)
        active_player_id := 1
        leg_starter_player_id := 1
        set_number := 1
        leg_number_in_set := 1
        winner_player_id := none
        last_leg_winner_player_id := none
        last_set_winner_player_id := none
        last_visit := none
        history := [] }
    undo_stack := [] }

/-- The exceptions `submit_visit`/`undo` can raise (`RuntimeError`,
`PermissionError` and `ValueError` in the source, one enum here). -/
inductive GameError where
  | alreadyOver
  | notYourTurn
  | tooManyDarts
  | invalidDart
  | visitTotalOutOfRange
  | dartsAfterCheckout
  | nothingToUndo
deriving DecidableEq, Repr

/-- Total of a visit: `sum(d.score for d in dart_list)`. -/
def visitTotal (dart_list : List Dart) : Nat := (dart_list.map Dart.score).sum

/-- The `running` loop of `submit_visit` (lines 217–221): true iff the running
sum hits `remaining_before` strictly before the final dart. -/
def checkoutMidVisit (remaining_before : Int) : Nat → List Dart → Bool
  | _, [] => false
  | running, d :: rest =>
    let running' := running + d.score
    if ((running' : Int) == remaining_before) && !rest.isEmpty then true
    else checkoutMidVisit remaining_before running' rest

/-- The rejection checks of `submit_visit` that run after the empty visit has
been normalized to a single miss (lines 203–221). -/
def submitChecksAfterNorm (state : MatchState) (dart_list : List Dart) :
    Except GameError (List Dart) :=
  if 3 < dart_list.length then .error .tooManyDarts
  else if !dart_list.all Dart.valid then .error .invalidDart
  else if 180 < visitTotal dart_list then .error .visitTotalOutOfRange
    -- the source also rejects `total < 0`, impossible for a sum of Nat scores
  else if checkoutMidVisit (get_player state.players state.active_player_id).remaining
      0 dart_list then .error .dartsAfterCheckout
  else .ok dart_list

/-- All the rejection checks of `submit_visit` (lines 191–221), in source
order; on success returns the normalized dart list. -/
def submitChecks (state : MatchState) (darts : List Dart) (player_id : Option Nat) :
    Except GameError (List Dart) :=
  if state.is_over then .error .alreadyOver
  else if (match player_id with
           | some p => p != state.active_player_id
           | none => false) then .error .notYourTurn
  else submitChecksAfterNorm state (if darts.isEmpty then [⟨0, 0⟩] else darts)

/-- The classification block of `submit_visit` (lines 223–244): returns
`(bust, checkout, remaining_after)`. -/
def classifyVisit (double_out : Bool) (remaining_before : Int) (total : Nat)
    (last : Dart) : Bool × Bool × Int :=
  let proposed := remaining_before - (total : Int)
  if proposed < 0 then (true, false, remaining_before)
  else if double_out && proposed == 1 then (true, false, remaining_before)
  else if proposed == 0 then
    if double_out then
      if !last.isDouble then (true, false, remaining_before)
      else (false, true, 0)
    else (false, true, 0)
  else (false, false, proposed)

/-- The `VisitResult` built by `submit_visit` (lines 246–254). -/
def visitOf (state : MatchState) (dart_list : List Dart) : VisitResult :=
  let active_id := state.active_player_id
  let remaining_before := (get_player state.players active_id).remaining
  let c := classifyVisit state.config.double_out remaining_before
      (visitTotal dart_list) (dart_list.getLastD ⟨0, 0⟩)
  { player_id := active_id
    darts := dart_list
    total := visitTotal dart_list
    bust := c.1
    checkout := c.2.1
    remaining_before := remaining_before
    remaining_after := c.2.2 }

/-- The local variables of `submit_visit` that feed the final `MatchState`
construction (lines 266–333). -/
structure SubmitLocals where
  players : PlayerMatchState × PlayerMatchState
  next_active_player_id : Nat
  leg_starter_player_id : Nat
  set_number : Nat
  leg_number_in_set : Nat
  winner_player_id : Option Nat
  last_leg_winner_player_id : Option Nat
  last_set_winner_player_id : Option Nat
deriving DecidableEq, Repr

/-- The `if checkout:` block of `submit_visit` (lines 280–333), written as the
same sequence of (re)assignments the source performs. -/
def checkoutLocals (state : MatchState) (active_id next0 : Nat)
    (players1 : PlayerMatchState × PlayerMatchState) : SubmitLocals :=
  let cfg := state.config
  let wp0 := get_player players1 active_id
  -- line 285: winner's legs_won incremented
  let wp1 : PlayerMatchState := ⟨wp0.player_id, wp0.remaining, wp0.legs_won + 1, wp0.sets_won⟩
  let players2 := replace_player players1 wp1
  -- line 294: set win check
  let set_won : Bool := decide (cfg.legs_to_win_set ≤ wp1.legs_won)
  -- lines 296–303: sets_won incremented on set win
  let wp2 : PlayerMatchState := ⟨wp1.player_id, wp1.remaining, wp1.legs_won, wp1.sets_won + 1⟩
  let players3 := if set_won then replace_player players2 wp2 else players2
  let last_set_winner := if set_won then some active_id else state.last_set_winner_player_id
  -- line 305: match win check
  let match_won : Bool := set_won && decide (cfg.sets_to_win_match ≤ wp2.sets_won)
  let winner := if match_won then some active_id else state.winner_player_id
  -- lines 309–318: start next set (legs reset, remaining reset)
  let set_number := if set_won && !match_won then state.set_number + 1 else state.set_number
  let leg_number1 := if set_won && !match_won then 1 else state.leg_number_in_set
  let players4 :=
    if set_won && !match_won then
      (⟨1, cfg.starting_score, 0, (get_player players3 1).sets_won⟩,
       ⟨2, cfg.starting_score, 0, (get_player players3 2).sets_won⟩)
    else players3
  -- lines 319–333: start next leg unless the match is over
  if winner = none then
    let leg_number2 := if !set_won then state.leg_number_in_set + 1 else leg_number1
    let starter := other_player_id state.leg_starter_player_id
    { players :=
        (⟨1, cfg.starting_score, (get_player players4 1).legs_won, (get_player players4 1).sets_won⟩,
         ⟨2, cfg.starting_score, (get_player players4 2).legs_won, (get_player players4 2).sets_won⟩)
      next_active_player_id := starter
      leg_starter_player_id := starter
      set_number := set_number
      leg_number_in_set := leg_number2
      winner_player_id := winner
      last_leg_winner_player_id := some active_id
      last_set_winner_player_id := last_set_winner }
  else
    { players := players4
      next_active_player_id := next0
      leg_starter_player_id := state.leg_starter_player_id
      set_number := set_number
      leg_number_in_set := leg_number1
      winner_player_id := winner
      last_leg_winner_player_id := some active_id
      last_set_winner_player_id := last_set_winner }

/-- The non-checkout path leaves every tracked local at its pre-visit value. -/
def normalLocals (state : MatchState) (next0 : Nat)
    (players1 : PlayerMatchState × PlayerMatchState) : SubmitLocals :=
  { players := players1
    next_active_player_id := next0
    leg_starter_player_id := state.leg_starter_player_id
    set_number := state.set_number
    leg_number_in_set := state.leg_number_in_set
    winner_player_id := state.winner_player_id
    last_leg_winner_player_id := state.last_leg_winner_player_id
    last_set_winner_player_id := state.last_set_winner_player_id }

/-- The state `submit_visit` installs after all checks pass (lines 223–347). -/
def stateAfterVisit (state : MatchState) (dart_list : List Dart) : MatchState :=
  let active_id := state.active_player_id
  let active := get_player state.players active_id
  let v := visitOf state dart_list
  -- lines 259–266: score update (or revert on bust)
  let new_active : PlayerMatchState :=
    ⟨active.player_id, if v.bust then v.remaining_before else v.remaining_after,
     active.legs_won, active.sets_won⟩
  let players1 := replace_player state.players new_active
  -- line 270: turn passes to the other player
  let next0 := other_player_id active_id
  let L := if v.checkout then checkoutLocals state active_id next0 players1
           else normalLocals state next0 players1
  { config := state.config
    players := L.players
    active_player_id :=
      if L.winner_player_id = none then L.next_active_player_id else state.active_player_id
    leg_starter_player_id := L.leg_starter_player_id
    set_number := L.set_number
    leg_number_in_set := L.leg_number_in_set
    winner_player_id := L.winner_player_id
    last_leg_winner_player_id := L.last_leg_winner_player_id
    last_set_winner_player_id := L.last_set_winner_player_id
    last_visit := some v
    history := state.history ++ [v] }

/-- Lines 256–257 and 335–348: push the pre-visit state, install the new one. -/
def applyVisitChecked (g : Game) (dart_list : List Dart) : Game :=
  { config := g.config
    state := stateAfterVisit g.state dart_list
    undo_stack := g.state :: g.undo_stack }

/-- `Game501MatchTwoPlayer.submit_visit`.  All raising checks happen before
the undo-stack push and the state install, so an error leaves the instance
untouched. -/
def submitVisit (g : Game) (darts : List Dart) (player_id : Option Nat) :
    Except GameError Game :=
  match submitChecks g.state darts player_id with
  | .error e => .error e
  | .ok dart_list => .ok (applyVisitChecked g dart_list)

/-- `Game501MatchTwoPlayer.undo`. -/
def undo (g : Game) : Except GameError Game :=
  match g.undo_stack with
  | [] => .error .nothingToUndo
  | s :: rest => .ok { g with state := s, undo_stack := rest }

/-- `Game501MatchTwoPlayer.reset`: optional new config replaces the stored
one; then `__init__` runs again. -/
def reset (g : Game) (config : Option MatchConfig) : Game :=
  initGame (some (config.getD g.config))

/-- One external call on the game object.  A raising call (rejected visit,
undo on an empty stack) leaves the state untouched, since every `raise` in
the source occurs before any mutation. -/
inductive Op where
  | submit (darts : List Dart) (player_id : Option Nat)
  | undoOp
  | resetOp (config : Option MatchConfig)

/-- Effect of one call on the stored game (errors leave it unchanged). -/
def applyOp (g : Game) : Op → Game
  | .submit darts pid =>
    match submitVisit g darts pid with
    | .ok g' => g'
    | .error _ => g
  | .undoOp =>
    match undo g with
    | .ok g' => g'
    | .error _ => g
  | .resetOp cfg => reset g cfg

/-- A call is well-formed when any config it carries passed
`MatchConfig.__post_init__` (a Python `MatchConfig` cannot exist otherwise). -/
def Op.ok : Op → Bool
  | .resetOp (some c) => c.valid
  | _ => true

/-- States of the game object reachable through the public API.  The
constructor and `reset` only ever see configs that passed
`MatchConfig.__post_init__`. -/
inductive Reachable : Game → Prop
  | init (config : Option MatchConfig) (hv : config.all MatchConfig.valid = true) :
      Reachable (initGame config)
  | step {g : Game} (op : Op) (hr : Reachable g) (hv : op.ok = true) :
      Reachable (applyOp g op)

/-! ### Concrete regression checks mirroring the repository's unit tests -/
example : (Dart.mk 20 3).score = 60 := by decide
example : (Dart.mk 25 2).isDouble = true := by decide
example :
    (submitVisit (initGame none) [⟨20, 3⟩, ⟨20, 3⟩, ⟨20, 3⟩] none).toOption.map
      (fun g => ((get_player g.state.players 1).remaining, g.state.active_player_id))
      = some (321, 2) := by decide

/-! ### Basic lemmas about `submit_visit` -/

theorem submit_ok_exists {g : Game} {darts : List Dart} {pid : Option Nat} {g' : Game}
    (hok : submitVisit g darts pid = .ok g') :
    ∃ dl, submitChecks g.state darts pid = .ok dl ∧ g' = applyVisitChecked g dl := by
  unfold submitVisit at hok
  cases h : submitChecks g.state darts pid with
  | error e => rw [h] at hok; cases hok
  | ok dl =>
    rw [h] at hok
    injection hok with hok
    exact ⟨dl, rfl, hok.symm⟩

theorem applyVisit_last_visit (g : Game) (dl : List Dart) :
    (applyVisitChecked g dl).state.last_visit = some (visitOf g.state dl) := rfl

theorem applyVisit_history (g : Game) (dl : List Dart) :
    (applyVisitChecked g dl).state.history = g.state.history ++ [visitOf g.state dl] := rfl

theorem applyVisit_config (g : Game) (dl : List Dart) :
    (applyVisitChecked g dl).state.config = g.state.config := by
  show (stateAfterVisit g.state dl).config = g.state.config
  unfold stateAfterVisit
  rfl

theorem applyVisit_stack (g : Game) (dl : List Dart) :
    (applyVisitChecked g dl).undo_stack = g.state :: g.undo_stack := rfl

theorem visitOf_bust (s : MatchState) (dl : List Dart) :
    (visitOf s dl).bust
      = (classifyVisit s.config.double_out (get_player s.players s.active_player_id).remaining
          (visitTotal dl) (dl.getLastD ⟨0, 0⟩)).1 := rfl

theorem visitOf_checkout (s : MatchState) (dl : List Dart) :
    (visitOf s dl).checkout
      = (classifyVisit s.config.double_out (get_player s.players s.active_player_id).remaining
          (visitTotal dl) (dl.getLastD ⟨0, 0⟩)).2.1 := rfl

theorem visitOf_remaining_after (s : MatchState) (dl : List Dart) :
    (visitOf s dl).remaining_after
      = (classifyVisit s.config.double_out (get_player s.players s.active_player_id).remaining
          (visitTotal dl) (dl.getLastD ⟨0, 0⟩)).2.2 := rfl

theorem visitOf_remaining_before (s : MatchState) (dl : List Dart) :
    (visitOf s dl).remaining_before
      = (get_player s.players s.active_player_id).remaining := rfl

theorem visitOf_total (s : MatchState) (dl : List Dart) :
    (visitOf s dl).total = visitTotal dl := rfl

theorem visitOf_darts (s : MatchState) (dl : List Dart) :
    (visitOf s dl).darts = dl := rfl

/-! ### The classification block, case by case -/

theorem classifyVisit_neg {dout : Bool} {R : Int} {T : Nat} {last : Dart}
    (h : R - (T : Int) < 0) :
    classifyVisit dout R T last = (true, false, R) := by
  unfold classifyVisit
  rw [if_pos h]

theorem classifyVisit_one {dout : Bool} {R : Int} {T : Nat} {last : Dart}
    (hd : dout = true) (h : R - (T : Int) = 1) :
    classifyVisit dout R T last = (true, false, R) := by
  simp [classifyVisit, h, hd]

theorem classifyVisit_zero_bust {dout : Bool} {R : Int} {T : Nat} {last : Dart}
    (h : R - (T : Int) = 0) (hd : dout = true) (hl : last.isDouble = false) :
    classifyVisit dout R T last = (true, false, R) := by
  simp [classifyVisit, h, hd, hl]

theorem classifyVisit_zero_checkout {dout : Bool} {R : Int} {T : Nat} {last : Dart}
    (h : R - (T : Int) = 0) (hok : dout = false ∨ last.isDouble = true) :
    classifyVisit dout R T last = (false, true, 0) := by
  rcases hok with hd | hl
  · simp [classifyVisit, h, hd]
  · cases dout <;> simp [classifyVisit, h, hl]

theorem classifyVisit_normal {dout : Bool} {R : Int} {T : Nat} {last : Dart}
    (h : 0 < R - (T : Int)) (h2 : dout = true → R - (T : Int) ≠ 1) :
    classifyVisit dout R T last = (false, false, R - (T : Int)) := by
  unfold classifyVisit
  rw [if_neg (by omega), if_neg ?c2, if_neg ?c3]
  case c2 =>
    cases dout with
    | false => simp
    | true => simp [h2 rfl]
  case c3 =>
    simp only [beq_iff_eq]
    omega

/-- C1: for every visit accepted by `submit_visit`, with pre-visit remaining `R`
and visit total `T` and `proposed = R - T`: `proposed < 0` busts; double-out with
`proposed = 1` busts; `proposed = 0` is a checkout iff double-out is off or the
final dart is a double, else a bust; otherwise it is a normal turn with
`remaining_after = proposed`; and every bust leaves `remaining_after = R`. -/
theorem C1_submit_visit_classification (g : Game) (darts : List Dart) (pid : Option Nat)
    (g' : Game) (v : VisitResult)
    (hok : submitVisit g darts pid = .ok g')
    (hv : g'.state.last_visit = some v) :
    v.remaining_before = (get_player g.state.players g.state.active_player_id).remaining ∧
    (v.remaining_before - (v.total : Int) < 0 →
      v.bust = true ∧ v.checkout = false ∧ v.remaining_after = v.remaining_before) ∧
    (g.state.config.double_out = true → v.remaining_before - (v.total : Int) = 1 →
      v.bust = true ∧ v.checkout = false ∧ v.remaining_after = v.remaining_before) ∧
    (v.remaining_before - (v.total : Int) = 0 →
      ((v.checkout = true ↔
          (g.state.config.double_out = false ∨ (v.darts.getLastD ⟨0, 0⟩).isDouble = true)) ∧
        (v.checkout = true → v.bust = false ∧ v.remaining_after = 0) ∧
        (v.checkout = false → v.bust = true))) ∧
    (0 < v.remaining_before - (v.total : Int) →
      (g.state.config.double_out = true → v.remaining_before - (v.total : Int) ≠ 1) →
      v.bust = false ∧ v.checkout = false ∧
        v.remaining_after = v.remaining_before - (v.total : Int)) ∧
    (v.bust = true → v.remaining_after = v.remaining_before) := by
  obtain ⟨dl, hc, rfl⟩ := submit_ok_exists hok
  rw [applyVisit_last_visit] at hv
  injection hv with hv
  subst hv
  simp only [visitOf_bust, visitOf_checkout, visitOf_remaining_after,
    visitOf_remaining_before, visitOf_total, visitOf_darts]
  set dout := g.state.config.double_out with hdout
  set R := (get_player g.state.players g.state.active_player_id).remaining with hR
  set T := visitTotal dl with hT
  set last := dl.getLastD ⟨0, 0⟩ with hlast
  refine ⟨trivial, ?_, ?_, ?_, ?_, ?_⟩
  · intro h
    rw [classifyVisit_neg h]
    simp
  · intro hd h
    rw [classifyVisit_one hd h]
    simp
  · intro h
    rcases Bool.eq_false_or_eq_true dout with hd | hd
    · rcases Bool.eq_false_or_eq_true last.isDouble with hl | hl
      · rw [classifyVisit_zero_checkout h (Or.inr hl)]
        simp [hl]
      · rw [classifyVisit_zero_bust h hd hl]
        simp [hd, hl]
    · rw [classifyVisit_zero_checkout h (Or.inl hd)]
      simp [hd]
  · intro h h2
    rw [classifyVisit_normal h h2]
    simp
  · rcases lt_trichotomy (R - (T : Int)) 0 with hneg | hzero | hpos
    · rw [classifyVisit_neg hneg]; intro _; rfl
    · rcases Bool.eq_false_or_eq_true dout with hd | hd
      · rcases Bool.eq_false_or_eq_true last.isDouble with hl | hl
        · rw [classifyVisit_zero_checkout hzero (Or.inr hl)]; simp
        · rw [classifyVisit_zero_bust hzero hd hl]; intro _; rfl
      · rw [classifyVisit_zero_checkout hzero (Or.inl hd)]; simp
    · by_cases h1 : dout = true ∧ R - (T : Int) = 1
      · rw [classifyVisit_one h1.1 h1.2]; intro _; rfl
      · have h2 : dout = true → R - (T : Int) ≠ 1 := fun hd h' => h1 ⟨hd, h'⟩
        rw [classifyVisit_normal hpos h2]; simp

/-- Witness for C1: a plain S20 opening visit in a default match is a normal
turn leaving 481. -/
theorem C1_witness :
    (visitOf (initGame none).state [⟨20, 1⟩]).bust = false ∧
    (visitOf (initGame none).state [⟨20, 1⟩]).remaining_after = 481 := by
  have h := C1_submit_visit_classification (initGame none) [⟨20, 1⟩] none
    (applyVisitChecked (initGame none) [⟨20, 1⟩])
    (visitOf (initGame none).state [⟨20, 1⟩]) rfl rfl
  have h5 := h.2.2.2.2.1 (by decide) (by decide)
  refine ⟨h5.1, ?_⟩
  rw [h5.2.2]
  decide

/-- C3: an accepted `submit_visit` followed by `undo` restores the exact
pre-submit game object (all fields, history and last_visit included), and
`state()` afterwards returns that pre-submit state. -/
theorem C3_submit_undo_roundtrip (g : Game) (darts : List Dart) (pid : Option Nat)
    (g' : Game) (hok : submitVisit g darts pid = .ok g') :
    undo g' = .ok g ∧ (undo g').map Game.state = .ok g.state := by
  obtain ⟨dl, hc, rfl⟩ := submit_ok_exists hok
  exact ⟨rfl, rfl⟩

/-- Witness for C3 at a concrete accepted visit. -/
theorem C3_witness :
    undo (applyVisitChecked (initGame none) [⟨20, 1⟩]) = .ok (initGame none) ∧
    (undo (applyVisitChecked (initGame none) [⟨20, 1⟩])).map Game.state
      = .ok (initGame none).state :=
  C3_submit_undo_roundtrip (initGame none) [⟨20, 1⟩] none
    (applyVisitChecked (initGame none) [⟨20, 1⟩]) rfl

/-! ### C9: visit totals of valid darts are bounded -/

theorem dart_valid_score_le {d : Dart} (h : d.valid = true) : d.score ≤ 60 := by
  obtain ⟨v, m⟩ := d
  unfold Dart.valid at h
  unfold Dart.score
  simp only [Bool.and_eq_true, decide_eq_true_eq] at h
  obtain ⟨hm, h2⟩ := h
  split at h2
  · next h0 =>
    simp only [beq_iff_eq] at h2
    subst h2
    simp
  · next h0 =>
    simp only [Bool.and_eq_true, Bool.or_eq_true, decide_eq_true_eq, beq_iff_eq,
      Bool.not_eq_true', Bool.and_eq_false_iff, beq_eq_false_iff_ne, ne_eq] at h2
    obtain ⟨hv, hn⟩ := h2
    simp only at *
    interval_cases m <;> rcases hv with ⟨h1, h2'⟩ | rfl <;> omega

theorem visitTotal_le_of_valid {dl : List Dart} (hv : dl.all Dart.valid = true) :
    visitTotal dl ≤ 60 * dl.length := by
  induction dl with
  | nil => simp [visitTotal]
  | cons d rest ih =>
    rw [List.all_cons, Bool.and_eq_true] at hv
    have hd := dart_valid_score_le hv.1
    have hr := ih hv.2
    simp only [visitTotal, List.map_cons, List.sum_cons, List.length_cons] at *
    omega

theorem submitChecksAfterNorm_ne_out_of_range (state : MatchState) (dl : List Dart) :
    submitChecksAfterNorm state dl ≠ .error .visitTotalOutOfRange := by
  intro hcon
  unfold submitChecksAfterNorm at hcon
  split at hcon
  · exact absurd hcon (by simp)
  · split at hcon
    · exact absurd hcon (by simp)
    · next h3 h4 =>
      split at hcon
      · next h5 =>
        have hall : dl.all Dart.valid = true := by
          rcases Bool.eq_false_or_eq_true (dl.all Dart.valid) with ht | hf
          · exact ht
          · exact absurd hf (by simpa using h4)
        have hlen : dl.length ≤ 3 := by omega
        have := visitTotal_le_of_valid hall
        omega
      · next h5 =>
        split at hcon
        · exact absurd hcon (by simp)
        · exact absurd hcon (by simp)

theorem submitChecks_ne_out_of_range (state : MatchState) (darts : List Dart)
    (pid : Option Nat) :
    submitChecks state darts pid ≠ .error .visitTotalOutOfRange := by
  intro hcon
  unfold submitChecks at hcon
  split at hcon
  · exact absurd hcon (by simp)
  · split at hcon
    · exact absurd hcon (by simp)
    · exact submitChecksAfterNorm_ne_out_of_range _ _ hcon

/-- C9: every list of at most 3 darts that each satisfy the `Dart` validity
invariants has a visit total in [0, 180]; consequently the
`VISIT_TOTAL_OUT_OF_RANGE` rejection branch of `submit_visit` can never fire. -/
theorem C9_visit_total_bound :
    (∀ dl : List Dart, dl.all Dart.valid = true → dl.length ≤ 3 →
      0 ≤ visitTotal dl ∧ visitTotal dl ≤ 180) ∧
    (∀ (g : Game) (darts : List Dart) (pid : Option Nat),
      submitVisit g darts pid ≠ .error .visitTotalOutOfRange) := by
  constructor
  · intro dl hv hl
    have := visitTotal_le_of_valid hv
    omega
  · intro g darts pid hcon
    unfold submitVisit at hcon
    split at hcon
    · next e heq =>
      injection hcon with hcon
      subst hcon
      exact submitChecks_ne_out_of_range g.state darts pid heq
    · exact absurd hcon (by simp)

/-- Witness for C9 at a maximal valid visit and a triple-bull submission. -/
theorem C9_witness :
    visitTotal [⟨20, 3⟩, ⟨20, 3⟩, ⟨20, 3⟩] ≤ 180 ∧
    submitVisit (initGame none) [⟨25, 3⟩] none ≠ .error .visitTotalOutOfRange :=
  ⟨(C9_visit_total_bound.1 [⟨20, 3⟩, ⟨20, 3⟩, ⟨20, 3⟩] (by decide) (by decide)).2,
   C9_visit_total_bound.2 (initGame none) [⟨25, 3⟩] none⟩

/-! ### C2: leg / set / match progression on a checkout -/

theorem classify_checkout_shape {dout : Bool} {R : Int} {T : Nat} {last : Dart}
    (h : (classifyVisit dout R T last).2.1 = true) :
    classifyVisit dout R T last = (false, true, 0) := by
  rcases lt_trichotomy (R - (T : Int)) 0 with hneg | hzero | hpos
  · rw [classifyVisit_neg hneg] at h; simp at h
  · rcases Bool.eq_false_or_eq_true dout with hd | hd
    · rcases Bool.eq_false_or_eq_true last.isDouble with hl | hl
      · exact classifyVisit_zero_checkout hzero (Or.inr hl)
      · rw [classifyVisit_zero_bust hzero hd hl] at h; simp at h
    · exact classifyVisit_zero_checkout hzero (Or.inl hd)
  · by_cases h1 : dout = true ∧ R - (T : Int) = 1
    · rw [classifyVisit_one h1.1 h1.2] at h; simp at h
    · have h2 : dout = true → R - (T : Int) ≠ 1 := fun hd h' => h1 ⟨hd, h'⟩
      rw [classifyVisit_normal hpos h2] at h; simp at h

theorem submitChecks_ok_not_over {s : MatchState} {darts : List Dart} {pid : Option Nat}
    {dl : List Dart} (h : submitChecks s darts pid = .ok dl) :
    s.winner_player_id = none := by
  unfold submitChecks at h
  split at h
  · exact absurd h (by simp)
  · next hno =>
    rcases hw : s.winner_player_id with _ | w
    · rfl
    · exact absurd (by simp [MatchState.is_over, hw]) hno

theorem applyVisit_state (g : Game) (dl : List Dart) :
    (applyVisitChecked g dl).state = stateAfterVisit g.state dl := rfl

set_option maxHeartbeats 2000000 in
/-- C2 (amended): on every checkout the winner's legs-won is incremented and the
thrower is recorded as last leg winner; if legs-won reaches `legs_to_win_set`,
sets-won is incremented; if the new sets-won reaches `sets_to_win_match`, the
match winner is set, the state is terminal, the active player stays the thrower,
and the winner's legs-won keeps its incremented value (it is *not* reset to 0);
if the set is won without winning the match, legs are reset to 0 and a new set
starts; otherwise a new leg starts: the leg-starter flips from the previous
leg-starter (independent of the leg winner), becomes active, and both players'
remaining resets to `starting_score` with legs/sets preserved. -/
theorem C2_checkout_progression (g : Game) (darts : List Dart) (pid : Option Nat)
    (g' : Game) (v : VisitResult)
    (hok : submitVisit g darts pid = .ok g')
    (hv : g'.state.last_visit = some v)
    (hco : v.checkout = true)
    (hp1 : g.state.players.1.player_id = 1)
    (hp2 : g.state.players.2.player_id = 2)
    (ha : g.state.active_player_id = 1 ∨ g.state.active_player_id = 2) :
    g'.state.last_leg_winner_player_id = some g.state.active_player_id ∧
    (¬ g.state.config.legs_to_win_set ≤
        (get_player g.state.players g.state.active_player_id).legs_won + 1 →
      (g'.state.winner_player_id = none ∧
       (get_player g'.state.players g.state.active_player_id).legs_won
         = (get_player g.state.players g.state.active_player_id).legs_won + 1 ∧
       (get_player g'.state.players g.state.active_player_id).sets_won
         = (get_player g.state.players g.state.active_player_id).sets_won ∧
       (get_player g'.state.players (other_player_id g.state.active_player_id)).legs_won
         = (get_player g.state.players (other_player_id g.state.active_player_id)).legs_won ∧
       (get_player g'.state.players (other_player_id g.state.active_player_id)).sets_won
         = (get_player g.state.players (other_player_id g.state.active_player_id)).sets_won ∧
       g'.state.players.1.remaining = g.state.config.starting_score ∧
       g'.state.players.2.remaining = g.state.config.starting_score ∧
       g'.state.leg_starter_player_id = other_player_id g.state.leg_starter_player_id ∧
       g'.state.active_player_id = g'.state.leg_starter_player_id ∧
       g'.state.set_number = g.state.set_number ∧
       g'.state.leg_number_in_set = g.state.leg_number_in_set + 1)) ∧
    (g.state.config.legs_to_win_set ≤
        (get_player g.state.players g.state.active_player_id).legs_won + 1 →
     ¬ g.state.config.sets_to_win_match ≤
        (get_player g.state.players g.state.active_player_id).sets_won + 1 →
      (g'.state.winner_player_id = none ∧
       (get_player g'.state.players g.state.active_player_id).sets_won
         = (get_player g.state.players g.state.active_player_id).sets_won + 1 ∧
       (get_player g'.state.players (other_player_id g.state.active_player_id)).sets_won
         = (get_player g.state.players (other_player_id g.state.active_player_id)).sets_won ∧
       g'.state.players.1.legs_won = 0 ∧
       g'.state.players.2.legs_won = 0 ∧
       g'.state.players.1.remaining = g.state.config.starting_score ∧
       g'.state.players.2.remaining = g.state.config.starting_score ∧
       g'.state.leg_starter_player_id = other_player_id g.state.leg_starter_player_id ∧
       g'.state.active_player_id = g'.state.leg_starter_player_id ∧
       g'.state.set_number = g.state.set_number + 1 ∧
       g'.state.leg_number_in_set = 1 ∧
       g'.state.last_set_winner_player_id = some g.state.active_player_id)) ∧
    (g.state.config.legs_to_win_set ≤
        (get_player g.state.players g.state.active_player_id).legs_won + 1 →
     g.state.config.sets_to_win_match ≤
        (get_player g.state.players g.state.active_player_id).sets_won + 1 →
      (g'.state.winner_player_id = some g.state.active_player_id ∧
       g'.state.is_over = true ∧
       g'.state.active_player_id = g.state.active_player_id ∧
       (get_player g'.state.players g.state.active_player_id).legs_won
         = (get_player g.state.players g.state.active_player_id).legs_won + 1 ∧
       (get_player g'.state.players g.state.active_player_id).sets_won
         = (get_player g.state.players g.state.active_player_id).sets_won + 1 ∧
       (get_player g'.state.players g.state.active_player_id).remaining = 0 ∧
       get_player g'.state.players (other_player_id g.state.active_player_id)
         = get_player g.state.players (other_player_id g.state.active_player_id) ∧
       g'.state.last_set_winner_player_id = some g.state.active_player_id)) := by
  obtain ⟨dl, hc, rfl⟩ := submit_ok_exists hok
  have hwin := submitChecks_ok_not_over hc
  rw [applyVisit_last_visit] at hv
  injection hv with hv
  subst hv
  have hcl := classify_checkout_shape (by rw [← visitOf_checkout]; exact hco)
  have hbust : (visitOf g.state dl).bust = false := by rw [visitOf_bust, hcl]
  have hafter : (visitOf g.state dl).remaining_after = 0 := by rw [visitOf_remaining_after, hcl]
  rcases ha with hA | hA
  · refine ⟨?_, ?_, ?_, ?_⟩
    · simp [applyVisit_state, stateAfterVisit, checkoutLocals,
        get_player, replace_player, other_player_id, hco, hbust, hafter, hA, hp1, hp2, hwin]
      split_ifs <;> simp
    · intro hsw
      rw [hA] at hsw
      simp only [get_player, reduceIte] at hsw
      simp [applyVisit_state, stateAfterVisit, checkoutLocals,
        get_player, replace_player, other_player_id, hco, hbust, hafter, hA, hp1, hp2, hwin]
      split_ifs <;> first | (exfalso; omega) | simp_all
    · intro hsw hmw
      rw [hA] at hsw hmw
      simp only [get_player, reduceIte] at hsw hmw
      simp [applyVisit_state, stateAfterVisit, checkoutLocals,
        get_player, replace_player, other_player_id, hco, hbust, hafter, hA, hp1, hp2, hwin]
      split_ifs <;> first | (exfalso; omega) | simp_all
    · intro hsw hmw
      rw [hA] at hsw hmw
      simp only [get_player, reduceIte] at hsw hmw
      simp [applyVisit_state, stateAfterVisit, checkoutLocals, MatchState.is_over,
        get_player, replace_player, other_player_id, hco, hbust, hafter, hA, hp1, hp2, hwin]
      split_ifs <;> first | (exfalso; omega) | simp_all
  · refine ⟨?_, ?_, ?_, ?_⟩
    · simp [applyVisit_state, stateAfterVisit, checkoutLocals,
        get_player, replace_player, other_player_id, hco, hbust, hafter, hA, hp1, hp2, hwin]
      split_ifs <;> simp
    · intro hsw
      rw [hA] at hsw
      simp only [get_player, reduceIte] at hsw
      simp [applyVisit_state, stateAfterVisit, checkoutLocals,
        get_player, replace_player, other_player_id, hco, hbust, hafter, hA, hp1, hp2, hwin]
      split_ifs <;> first | (exfalso; omega) | simp_all
    · intro hsw hmw
      rw [hA] at hsw hmw
      simp only [get_player, reduceIte] at hsw hmw
      simp [applyVisit_state, stateAfterVisit, checkoutLocals,
        get_player, replace_player, other_player_id, hco, hbust, hafter, hA, hp1, hp2, hwin]
      split_ifs <;> first | (exfalso; omega) | simp_all
    · intro hsw hmw
      rw [hA] at hsw hmw
      simp only [get_player, reduceIte] at hsw hmw
      simp [applyVisit_state, stateAfterVisit, checkoutLocals, MatchState.is_over,
        get_player, replace_player, other_player_id, hco, hbust, hafter, hA, hp1, hp2, hwin]
      split_ifs <;> first | (exfalso; omega) | simp_all

/-- Counterexample to C2 as stated: with legs_to_win_set = 1, sets_to_win_match
= 1 and starting score 2, submitting D1 is a checkout whose legs-won reaches
legs_to_win_set and wins the match — but the winner's legs-won is 1, not 0, so
"sets-won is incremented and legs-won is reset to 0" fails on a match win. -/
theorem C2_counterexample :
    (submitVisit (initGame (some ⟨2, true, 1, 1⟩)) [⟨1, 2⟩] none).toOption.map
      (fun g' => (g'.state.last_visit.map (·.checkout), g'.state.winner_player_id,
                  (get_player g'.state.players 1).legs_won,
                  g'.state.config.legs_to_win_set))
      = some (some true, some 1, 1, 1) := by decide

/-- Witness for C2 (amended) at a concrete leg-winning checkout (40 left, D20):
the leg-starter alternates and the match is not over. -/
theorem C2_witness :
    (applyVisitChecked (initGame (some ⟨40, true, 3, 3⟩)) [⟨20, 2⟩]).state.leg_starter_player_id
      = other_player_id (initGame (some ⟨40, true, 3, 3⟩)).state.leg_starter_player_id ∧
    (applyVisitChecked (initGame (some ⟨40, true, 3, 3⟩)) [⟨20, 2⟩]).state.winner_player_id
      = none := by
  have h := C2_checkout_progression (initGame (some ⟨40, true, 3, 3⟩)) [⟨20, 2⟩] none
    (applyVisitChecked (initGame (some ⟨40, true, 3, 3⟩)) [⟨20, 2⟩])
    (visitOf (initGame (some ⟨40, true, 3, 3⟩)).state [⟨20, 2⟩])
    rfl rfl (by decide) rfl rfl (Or.inl rfl)
  have hA := h.2.1 (by decide)
  exact ⟨hA.2.2.2.2.2.2.2.1, hA.1⟩

/-! ### C4: under double-out, remaining_after = 1 can only arise from
starting_score = 1 -/

theorem get_player_cases (ps : PlayerMatchState × PlayerMatchState) (pid : Nat) :
    get_player ps pid = ps.1 ∨ get_player ps pid = ps.2 := by
  unfold get_player
  split <;> simp

theorem replace_player_cases (ps : PlayerMatchState × PlayerMatchState)
    (u : PlayerMatchState) :
    replace_player ps u = (u, ps.2) ∨ replace_player ps u = (ps.1, u) := by
  unfold replace_player
  split <;> simp

theorem classify_after_ne_one {dout : Bool} {R : Int} {T : Nat} {last : Dart}
    (hd : dout = true) (hR : R ≠ 1) :
    (classifyVisit dout R T last).2.2 ≠ 1 := by
  rcases lt_trichotomy (R - (T : Int)) 0 with hneg | hzero | hpos
  · rw [classifyVisit_neg hneg]; simpa using hR
  · rcases Bool.eq_false_or_eq_true (last.isDouble) with hl | hl
    · rw [classifyVisit_zero_checkout hzero (Or.inr hl)]; simp
    · rw [classifyVisit_zero_bust hzero hd hl]; simpa using hR
  · by_cases h1 : R - (T : Int) = 1
    · rw [classifyVisit_one hd h1]; simpa using hR
    · rw [classifyVisit_normal hpos (fun _ => h1)]; simpa using h1

/-- Invariant: while double-out is on and the legs cannot begin at 1, no
player sits on 1 and no recorded visit ended on 1. -/
def stateNoOne (s : MatchState) : Prop :=
  s.config.double_out = true → s.config.starting_score ≠ 1 →
    (s.players.1.remaining ≠ 1 ∧ s.players.2.remaining ≠ 1 ∧
     ∀ v ∈ s.history, v.remaining_after ≠ 1)

def gameNoOne (g : Game) : Prop :=
  stateNoOne g.state ∧ ∀ s ∈ g.undo_stack, stateNoOne s

set_option maxHeartbeats 4000000 in
theorem checkoutLocals_remaining (state : MatchState) (active_id next0 : Nat)
    (players1 : PlayerMatchState × PlayerMatchState) :
    ((checkoutLocals state active_id next0 players1).players.1.remaining
        = state.config.starting_score ∨
     (checkoutLocals state active_id next0 players1).players.1.remaining
        = players1.1.remaining ∨
     (checkoutLocals state active_id next0 players1).players.1.remaining
        = players1.2.remaining) ∧
    ((checkoutLocals state active_id next0 players1).players.2.remaining
        = state.config.starting_score ∨
     (checkoutLocals state active_id next0 players1).players.2.remaining
        = players1.1.remaining ∨
     (checkoutLocals state active_id next0 players1).players.2.remaining
        = players1.2.remaining) := by
  simp only [checkoutLocals, replace_player, get_player]
  split_ifs <;> simp

theorem stateAfterVisit_config (s : MatchState) (dl : List Dart) :
    (stateAfterVisit s dl).config = s.config := rfl

theorem stateAfterVisit_history (s : MatchState) (dl : List Dart) :
    (stateAfterVisit s dl).history = s.history ++ [visitOf s dl] := rfl

theorem stateAfterVisit_players (s : MatchState) (dl : List Dart) :
    (stateAfterVisit s dl).players =
      (if (visitOf s dl).checkout then
        checkoutLocals s s.active_player_id (other_player_id s.active_player_id)
          (replace_player s.players
            ⟨(get_player s.players s.active_player_id).player_id,
             if (visitOf s dl).bust then (visitOf s dl).remaining_before
             else (visitOf s dl).remaining_after,
             (get_player s.players s.active_player_id).legs_won,
             (get_player s.players s.active_player_id).sets_won⟩)
       else normalLocals s (other_player_id s.active_player_id)
          (replace_player s.players
            ⟨(get_player s.players s.active_player_id).player_id,
             if (visitOf s dl).bust then (visitOf s dl).remaining_before
             else (visitOf s dl).remaining_after,
             (get_player s.players s.active_player_id).legs_won,
             (get_player s.players s.active_player_id).sets_won⟩)).players := rfl

theorem stateAfterVisit_noOne {s : MatchState} (dl : List Dart)
    (hs : stateNoOne s) : stateNoOne (stateAfterVisit s dl) := by
  intro hd hss
  rw [stateAfterVisit_config] at hd hss
  obtain ⟨h1, h2, hh⟩ := hs hd hss
  have hRne : (get_player s.players s.active_player_id).remaining ≠ 1 := by
    rcases get_player_cases s.players s.active_player_id with hgp | hgp <;>
      rw [hgp] <;> assumption
  have hbefore : (visitOf s dl).remaining_before ≠ 1 := by
    rw [visitOf_remaining_before]; exact hRne
  have hafter : (visitOf s dl).remaining_after ≠ 1 := by
    rw [visitOf_remaining_after]; exact classify_after_ne_one hd hRne
  have hnew : (if (visitOf s dl).bust then (visitOf s dl).remaining_before
      else (visitOf s dl).remaining_after) ≠ 1 := by
    split <;> assumption
  -- the one updated player record
  set u : PlayerMatchState :=
    ⟨(get_player s.players s.active_player_id).player_id,
     if (visitOf s dl).bust then (visitOf s dl).remaining_before
     else (visitOf s dl).remaining_after,
     (get_player s.players s.active_player_id).legs_won,
     (get_player s.players s.active_player_id).sets_won⟩ with hu
  have hp1 : (replace_player s.players u).1.remaining ≠ 1 ∧
      (replace_player s.players u).2.remaining ≠ 1 := by
    rcases replace_player_cases s.players u with hr | hr <;> rw [hr] <;>
      exact ⟨by first | exact hnew | exact h1, by first | exact hnew | exact h2⟩
  refine ⟨?_, ?_, ?_⟩
  · rw [stateAfterVisit_players]
    split
    · rcases (checkoutLocals_remaining s s.active_player_id
          (other_player_id s.active_player_id) (replace_player s.players u)).1
        with hc | hc | hc <;> rw [hc]
      · exact hss
      · exact hp1.1
      · exact hp1.2
    · exact hp1.1
  · rw [stateAfterVisit_players]
    split
    · rcases (checkoutLocals_remaining s s.active_player_id
          (other_player_id s.active_player_id) (replace_player s.players u)).2
        with hc | hc | hc <;> rw [hc]
      · exact hss
      · exact hp1.1
      · exact hp1.2
    · exact hp1.2
  · rw [stateAfterVisit_history]
    intro v hv
    rcases List.mem_append.mp hv with hv | hv
    · exact hh v hv
    · rcases List.mem_singleton.mp hv with rfl
      exact hafter

theorem initGame_noOne (config : Option MatchConfig) : gameNoOne (initGame config) := by
  cases config with
  | none =>
    refine ⟨?_, by intro s hs; cases hs⟩
    intro _ hss
    exact ⟨by simpa using hss, by simpa using hss, by intro v hv; cases hv⟩
  | some c =>
    refine ⟨?_, by intro s hs; cases hs⟩
    intro _ hss
    exact ⟨by simpa using hss, by simpa using hss, by intro v hv; cases hv⟩

theorem reachable_noOne {g : Game} (h : Reachable g) : gameNoOne g := by
  induction h with
  | init config hv => exact initGame_noOne config
  | @step g op hr hv ih =>
    obtain ⟨ihs, ihst⟩ := ih
    cases op with
    | submit darts pid =>
      simp only [applyOp]
      cases hs : submitVisit g darts pid with
      | ok g' =>
        obtain ⟨dl, hc, hg'⟩ := submit_ok_exists hs
        subst hg'
        constructor
        · exact stateAfterVisit_noOne dl ihs
        · intro s hmem
          rw [applyVisit_stack] at hmem
          rcases List.mem_cons.mp hmem with rfl | hmem
          · exact ihs
          · exact ihst s hmem
      | error e => exact ⟨ihs, ihst⟩
    | undoOp =>
      simp only [applyOp]
      cases hstk : g.undo_stack with
      | nil => simp only [undo, hstk]; exact ⟨ihs, ihst⟩
      | cons s rest =>
        simp only [undo, hstk]
        constructor
        · exact ihst s (by rw [hstk]; exact List.mem_cons_self s rest)
        · intro t ht
          exact ihst t (by rw [hstk]; exact List.mem_cons_of_mem s ht)
    | resetOp cfg =>
      exact initGame_noOne _

/-- C4 (amended): in every reachable state whose config has double-out on and
`starting_score ≠ 1`, no visit in the history has `remaining_after = 1`; and
(for any reachable state, unconditionally) an accepted visit whose proposed
remaining is 1 under double-out is classified bust.  (When `starting_score = 1`
— a config the engine accepts — busts at 1 record `remaining_after = 1`, see
the counterexample.) -/
theorem C4_double_out_never_one (g : Game) (h : Reachable g) :
    (g.state.config.double_out = true → g.state.config.starting_score ≠ 1 →
      ∀ v ∈ g.state.history, v.remaining_after ≠ 1) ∧
    (∀ (darts : List Dart) (pid : Option Nat) (g' : Game) (v : VisitResult),
      g.state.config.double_out = true →
      submitVisit g darts pid = .ok g' → g'.state.last_visit = some v →
      v.remaining_before - (v.total : Int) = 1 → v.bust = true) := by
  constructor
  · intro hd hss v hv
    exact ((reachable_noOne h).1 hd hss).2.2 v hv
  · intro darts pid g' v hd hok hv hprop
    obtain ⟨dl, hc, rfl⟩ := submit_ok_exists hok
    rw [applyVisit_last_visit] at hv
    injection hv with hv
    subst hv
    rw [visitOf_remaining_before, visitOf_total] at hprop
    rw [visitOf_bust, classifyVisit_one hd hprop]

/-- Counterexample to C4 as stated: with the valid config
`starting_score = 1, double_out = true`, the reachable state after one
no-score visit has a history visit with `remaining_after = 1` (the visit
busts and remaining stays at 1). -/
theorem C4_counterexample :
    Reachable (applyOp (initGame (some ⟨1, true, 3, 3⟩)) (.submit [] none)) ∧
    (applyOp (initGame (some ⟨1, true, 3, 3⟩)) (.submit [] none)).state.config.double_out
      = true ∧
    ((applyOp (initGame (some ⟨1, true, 3, 3⟩)) (.submit [] none)).state.history.any
      (fun v => v.remaining_after == 1)) = true := by
  refine ⟨Reachable.step _ (Reachable.init (some ⟨1, true, 3, 3⟩) (by decide))
    (by decide), by decide, by decide⟩

/-- Witness for C4 at a concrete reachable game: starting score 2, double-out;
an S1 visit would leave exactly 1 and is classified bust. -/
theorem C4_witness :
    (visitOf (initGame (some ⟨2, true, 3, 3⟩)).state [⟨1, 1⟩]).bust = true :=
  (C4_double_out_never_one (initGame (some ⟨2, true, 3, 3⟩))
      (Reachable.init _ (by decide))).2
    [⟨1, 1⟩] none (applyVisitChecked (initGame (some ⟨2, true, 3, 3⟩)) [⟨1, 1⟩])
    (visitOf (initGame (some ⟨2, true, 3, 3⟩)).state [⟨1, 1⟩])
    rfl rfl rfl (by decide)

/-! ### C10: the undo stack mirrors the history -/

/-- The history lengths on the undo stack are exactly
`state.history.length - 1, ..., 1, 0` (most recent first). -/
def stackLensOk (g : Game) : Prop :=
  g.undo_stack.map (fun s => s.history.length)
    = (List.range g.state.history.length).reverse

theorem initGame_stackLens (config : Option MatchConfig) :
    stackLensOk (initGame config) := by
  cases config <;> rfl

theorem reachable_stackLens {g : Game} (h : Reachable g) : stackLensOk g := by
  induction h with
  | init config hv => exact initGame_stackLens config
  | @step g op hr hv ih =>
    cases op with
    | submit darts pid =>
      simp only [applyOp]
      cases hs : submitVisit g darts pid with
      | ok g' =>
        obtain ⟨dl, hc, hg'⟩ := submit_ok_exists hs
        subst hg'
        unfold stackLensOk at ih ⊢
        rw [applyVisit_stack, applyVisit_history]
        simp only [List.map_cons, List.length_append, List.length_singleton,
          List.range_succ, List.reverse_append, List.reverse_singleton,
          List.singleton_append, List.cons.injEq]
        exact ⟨trivial, ih⟩
      | error e => exact ih
    | undoOp =>
      simp only [applyOp]
      cases hstk : g.undo_stack with
      | nil => simp only [undo, hstk]; exact ih
      | cons s rest =>
        simp only [undo, hstk]
        unfold stackLensOk at ih ⊢
        rw [hstk] at ih
        simp only [List.map_cons] at ih
        cases hn : g.state.history.length with
        | zero => rw [hn] at ih; simp at ih
        | succ m =>
          rw [hn, List.range_succ, List.reverse_append, List.reverse_singleton,
            List.singleton_append] at ih
          rw [List.cons.injEq] at ih
          show rest.map (fun s => s.history.length) = (List.range s.history.length).reverse
          rw [ih.1, ih.2]
    | resetOp cfg => exact initGame_stackLens _

/-- C10: at every reachable state the undo stack length equals the history
length, and a rejected `submit_visit` leaves the game object unchanged (all
raises happen before the push), so `undo` always reverts exactly the last
accepted visit. -/
theorem C10_undo_stack_matches_history (g : Game) (h : Reachable g) :
    g.undo_stack.length = g.state.history.length ∧
    (∀ (darts : List Dart) (pid : Option Nat) (e : GameError),
      submitVisit g darts pid = .error e → applyOp g (.submit darts pid) = g) := by
  constructor
  · have hlen := congrArg List.length (reachable_stackLens h)
    simpa using hlen
  · intro darts pid e he
    simp only [applyOp, he]

/-- Witness for C10 at concrete reachable games: the fresh game, one accepted
visit, and a rejected out-of-turn visit. -/
theorem C10_witness :
    (applyOp (initGame none) (.submit [⟨20, 1⟩] none)).undo_stack.length
      = (applyOp (initGame none) (.submit [⟨20, 1⟩] none)).state.history.length ∧
    applyOp (initGame none) (.submit [⟨20, 1⟩] (some 2)) = initGame none := by
  have h := C10_undo_stack_matches_history (applyOp (initGame none) (.submit [⟨20, 1⟩] none))
    (Reachable.step _ (Reachable.init none (by decide)) (by decide))
  have h0 := C10_undo_stack_matches_history (initGame none)
    (Reachable.init none (by decide))
  exact ⟨h.1, h0.2 [⟨20, 1⟩] (some 2) .notYourTurn (by rfl)⟩

/-! ### checkout.py -/

/-- `CheckoutSuggestion` from `checkout.py`. -/
structure CheckoutSuggestion where
  darts : List Dart
deriving DecidableEq, Repr

/-- `_format_dart`. -/
def format_dart (d : Dart) : String :=
  if d.multiplier == 0 then "MISS"
  else if d.value == 25 && d.multiplier == 1 then "SBULL"
  else if d.value == 25 && d.multiplier == 2 then "DBULL"
  else (if d.multiplier == 1 then "S" else if d.multiplier == 2 then "D" else "T")
    ++ toString d.value

/-- `_all_scoring_darts`: S/D/T for 1–20 in order, then single and double bull. -/
def all_scoring_darts : List Dart :=
  ((List.range' 1 20).flatMap fun v => [⟨v, 1⟩, ⟨v, 2⟩, ⟨v, 3⟩]) ++ [⟨25, 1⟩, ⟨25, 2⟩]

/-- `ALL_DARTS`, written out (it is `all_scoring_darts`, see `ALL_DARTS_eq`). -/
def ALL_DARTS : List Dart :=
  [⟨1, 1⟩, ⟨1, 2⟩, ⟨1, 3⟩, ⟨2, 1⟩, ⟨2, 2⟩, ⟨2, 3⟩, ⟨3, 1⟩, ⟨3, 2⟩, ⟨3, 3⟩,
   ⟨4, 1⟩, ⟨4, 2⟩, ⟨4, 3⟩, ⟨5, 1⟩, ⟨5, 2⟩, ⟨5, 3⟩, ⟨6, 1⟩, ⟨6, 2⟩, ⟨6, 3⟩,
   ⟨7, 1⟩, ⟨7, 2⟩, ⟨7, 3⟩, ⟨8, 1⟩, ⟨8, 2⟩, ⟨8, 3⟩, ⟨9, 1⟩, ⟨9, 2⟩, ⟨9, 3⟩,
   ⟨10, 1⟩, ⟨10, 2⟩, ⟨10, 3⟩, ⟨11, 1⟩, ⟨11, 2⟩, ⟨11, 3⟩, ⟨12, 1⟩, ⟨12, 2⟩,
   ⟨12, 3⟩, ⟨13, 1⟩, ⟨13, 2⟩, ⟨13, 3⟩, ⟨14, 1⟩, ⟨14, 2⟩, ⟨14, 3⟩, ⟨15, 1⟩,
   ⟨15, 2⟩, ⟨15, 3⟩, ⟨16, 1⟩, ⟨16, 2⟩, ⟨16, 3⟩, ⟨17, 1⟩, ⟨17, 2⟩, ⟨17, 3⟩,
   ⟨18, 1⟩, ⟨18, 2⟩, ⟨18, 3⟩, ⟨19, 1⟩, ⟨19, 2⟩, ⟨19, 3⟩, ⟨20, 1⟩, ⟨20, 2⟩,
   ⟨20, 3⟩, ⟨25, 1⟩, ⟨25, 2⟩]

theorem ALL_DARTS_eq : ALL_DARTS = all_scoring_darts := by decide

/-- `_is_valid_finish`. -/
def is_valid_finish (last : Dart) (double_out : Bool) : Bool :=
  !double_out || last.isDouble

/-- `_dart_preference_weight` (lower is better). -/
def dart_preference_weight (d : Dart) : Nat :=
  if d.value == 25 then (if d.multiplier == 1 then 60 else 30)
  else if d.multiplier == 2 then
    (if d.value ∈ [20, 16, 18, 10, 8, 12, 6, 4, 2] then
      List.indexOf d.value [20, 16, 18, 10, 8, 12, 6, 4, 2]
     else 15 + (20 - d.value))
  else if d.multiplier == 3 then
    (if d.value ∈ [20, 19, 18, 17, 16] then 5 + (20 - d.value)
     else 25 + (20 - d.value))
  else 40 + (20 - d.value)

/-- Stand-in for the `hash(formatted) & 0xFFFF` tie-break of `_route_weight`.
Python's string hash is seeded per process, so the source fixes no particular
value here; this deterministic function of the route (equivalent to keying on
the formatted string, since `_format_dart` is injective on scoring darts)
replaces it.  No claim depends on the tie-break value. -/
def route_tie_break (route : List Dart) : Nat :=
  route.foldl (fun h d => (h * 131 + d.value * 4 + d.multiplier) % 65536) 7

/-- `_route_weight`: (length, finish weight, setup weight, tie-break).  The
`double_out` parameter is unused in the source body as well. -/
def route_weight (route : List Dart) (double_out : Bool) : Nat × Nat × Nat × Nat :=
  (route.length, dart_preference_weight (route.getLastD ⟨0, 0⟩),
   (route.dropLast.map dart_preference_weight).sum,
   route_tie_break route)

/-- Lexicographic ≤ on sort keys, as Python compares key tuples. -/
def key_le (a b : Nat × Nat × Nat × Nat) : Bool :=
  decide (a.1 < b.1) ||
    (a.1 == b.1 && (decide (a.2.1 < b.2.1) ||
      (a.2.1 == b.2.1 && (decide (a.2.2.1 < b.2.2.1) ||
        (a.2.2.1 == b.2.2.1 && decide (a.2.2.2 ≤ b.2.2.2))))))

/-- Stable merge of two lists (fuel-based so it is structurally recursive). -/
def merge_fuel {α : Type} (le : α → α → Bool) : Nat → List α → List α → List α
  | 0, xs, ys => xs ++ ys
  | _ + 1, [], ys => ys
  | _ + 1, x :: xs, [] => x :: xs
  | n + 1, x :: xs, y :: ys =>
    if le x y then x :: merge_fuel le n xs (y :: ys)
    else y :: merge_fuel le n (x :: xs) ys

/-- Stable merge sort; models Python's stable `list.sort`. -/
def merge_sort_fuel {α : Type} (le : α → α → Bool) : Nat → List α → List α
  | 0, l => l
  | n + 1, l =>
    if l.length ≤ 1 then l
    else
      merge_fuel le l.length
        (merge_sort_fuel le n (l.take (l.length / 2)))
        (merge_sort_fuel le n (l.drop (l.length / 2)))

/-- `suggestions.sort(key=...)`: Python computes the key once per element and
stable-sorts by it. -/
def sort_by_key (routes : List (List Dart)) (double_out : Bool) : List (List Dart) :=
  (merge_sort_fuel (fun a b => key_le a.2 b.2)
    (routes.map fun r => (r, route_weight r double_out)).length
    (routes.map fun r => (r, route_weight r double_out))).map (·.1)

/-- The dedup-by-formatted-string and truncate-to-`limit` loop at the end of
`suggest_checkouts` (`count` is `len(out)` so far). -/
def dedup_take (limit : Int) (seen : List String) (count : Int) :
    List (List Dart) → List CheckoutSuggestion
  | [] => []
  | route :: rest =>
    if seen.contains (String.intercalate "," (route.map format_dart)) then
      dedup_take limit seen count rest
    else if limit ≤ count + 1 then [⟨route⟩]
    else ⟨route⟩ :: dedup_take limit
      (String.intercalate "," (route.map format_dart) :: seen) (count + 1) rest

/-- `ValueError("max_darts must be 1, 2, or 3")`. -/
inductive CheckoutError where
  | invalidMaxDarts
deriving DecidableEq, Repr

/-- The 1-dart loop of `suggest_checkouts`. -/
def one_dart_routes (remaining : Int) (double_out : Bool) : List (List Dart) :=
  (ALL_DARTS.filter fun d1 =>
    ((d1.score : Int) == remaining) && is_valid_finish d1 double_out).map fun d1 => [d1]

/-- The 2-dart loop of `suggest_checkouts`. -/
def two_dart_routes (remaining : Int) (double_out : Bool) : List (List Dart) :=
  ALL_DARTS.flatMap fun d1 =>
    if remaining - (d1.score : Int) ≤ 0 then []
    else (ALL_DARTS.filter fun d2 =>
      ((d2.score : Int) == remaining - (d1.score : Int)) &&
        is_valid_finish d2 double_out).map fun d2 => [d1, d2]

/-- The 3-dart loop of `suggest_checkouts`. -/
def three_dart_routes (remaining : Int) (double_out : Bool) : List (List Dart) :=
  ALL_DARTS.flatMap fun d1 =>
    if remaining - (d1.score : Int) ≤ 0 then []
    else ALL_DARTS.flatMap fun d2 =>
      if remaining - (d1.score : Int) - (d2.score : Int) ≤ 0 then []
      else (ALL_DARTS.filter fun d3 =>
        ((d3.score : Int) == remaining - (d1.score : Int) - (d2.score : Int)) &&
          is_valid_finish d3 double_out).map fun d3 => [d1, d2, d3]

/-- `suggest_checkouts` (the `@lru_cache` wrapper only memoizes this pure
function, so it is modelled as the function itself).  `max_darts` is kept as a
`Nat`: any value outside {1,2,3} — including Python negatives — raises. -/
def suggest_checkouts (remaining : Int) (double_out : Bool) (max_darts : Nat)
    (limit : Int) : Except CheckoutError (List CheckoutSuggestion) :=
  if remaining ≤ 0 then .ok []
  else if !(max_darts == 1 || max_darts == 2 || max_darts == 3) then
    .error .invalidMaxDarts
  else if limit ≤ 0 then .ok []
  else if double_out && decide (170 < remaining) then .ok []
  else
    .ok (dedup_take limit [] 0 (sort_by_key
      ((if 1 ≤ max_darts then one_dart_routes remaining double_out else []) ++
       (if 2 ≤ max_darts then two_dart_routes remaining double_out else []) ++
       (if 3 ≤ max_darts then three_dart_routes remaining double_out else []))
      double_out))

/-! #### Facts about the fuel-based stable sort -/

theorem merge_fuel_perm {α : Type} (le : α → α → Bool) :
    ∀ (n : Nat) (xs ys : List α), (merge_fuel le n xs ys).Perm (xs ++ ys) := by
  intro n
  induction n with
  | zero => intro xs ys; exact List.Perm.refl _
  | succ n ih =>
    intro xs ys
    cases xs with
    | nil => simp [merge_fuel]
    | cons x xs =>
      cases ys with
      | nil => simp [merge_fuel]
      | cons y ys =>
        rw [merge_fuel]
        split
        · exact (ih xs (y :: ys)).cons x
        · exact ((ih (x :: xs) ys).cons y).trans List.perm_middle.symm

theorem merge_sort_fuel_perm {α : Type} (le : α → α → Bool) :
    ∀ (n : Nat) (l : List α), (merge_sort_fuel le n l).Perm l := by
  intro n
  induction n with
  | zero => intro l; exact List.Perm.refl l
  | succ n ih =>
    intro l
    rw [merge_sort_fuel]
    split
    · exact List.Perm.refl l
    · have h1 := merge_fuel_perm le l.length
        (merge_sort_fuel le n (l.take (l.length / 2)))
        (merge_sort_fuel le n (l.drop (l.length / 2)))
      have h2 : (merge_sort_fuel le n (l.take (l.length / 2)) ++
          merge_sort_fuel le n (l.drop (l.length / 2))).Perm l := by
        have h3 := (ih (l.take (l.length / 2))).append (ih (l.drop (l.length / 2)))
        rwa [List.take_append_drop] at h3
      exact h1.trans h2

/-- Boolean-relation sortedness. -/
def SortedB {α : Type} (le : α → α → Bool) (l : List α) : Prop :=
  l.Pairwise (fun a b => le a b = true)

theorem merge_fuel_sorted {α : Type} {le : α → α → Bool}
    (htot : ∀ a b, le a b = true ∨ le b a = true)
    (htrans : ∀ a b c, le a b = true → le b c = true → le a c = true) :
    ∀ (n : Nat) (xs ys : List α), xs.length + ys.length ≤ n →
      SortedB le xs → SortedB le ys → SortedB le (merge_fuel le n xs ys) := by
  intro n
  induction n with
  | zero =>
    intro xs ys hlen hxs hys
    have hx : xs = [] := by cases xs <;> simp_all
    have hy : ys = [] := by cases ys <;> simp_all
    subst hx; subst hy
    simp [merge_fuel, SortedB]
  | succ n ih =>
    intro xs ys hlen hxs hys
    cases xs with
    | nil => simpa [merge_fuel] using hys
    | cons x xs =>
      cases ys with
      | nil => simpa [merge_fuel] using hxs
      | cons y ys =>
        rw [merge_fuel]
        have hx_all := (List.pairwise_cons.mp hxs).1
        have hxs' := (List.pairwise_cons.mp hxs).2
        have hy_all := (List.pairwise_cons.mp hys).1
        have hys' := (List.pairwise_cons.mp hys).2
        split
        · next hxy =>
          rw [SortedB, List.pairwise_cons]
          constructor
          · intro z hz
            have hz' := (merge_fuel_perm le n xs (y :: ys)).mem_iff.mp hz
            rcases List.mem_append.mp hz' with hz1 | hz2
            · exact hx_all z hz1
            · rcases List.mem_cons.mp hz2 with rfl | hz3
              · exact hxy
              · exact htrans x y z hxy (hy_all z hz3)
          · exact ih xs (y :: ys) (by simp only [List.length_cons] at hlen ⊢; omega) hxs' hys
        · next hxy =>
          have hyx : le y x = true := by
            rcases htot x y with h | h
            · exact absurd h hxy
            · exact h
          rw [SortedB, List.pairwise_cons]
          constructor
          · intro z hz
            have hz' := (merge_fuel_perm le n (x :: xs) ys).mem_iff.mp hz
            rcases List.mem_append.mp hz' with hz1 | hz2
            · rcases List.mem_cons.mp hz1 with rfl | hz3
              · exact hyx
              · exact htrans y x z hyx (hx_all z hz3)
            · exact hy_all z hz2
          · exact ih (x :: xs) ys (by simp only [List.length_cons] at hlen ⊢; omega) hxs hys'

theorem merge_sort_fuel_sorted {α : Type} {le : α → α → Bool}
    (htot : ∀ a b, le a b = true ∨ le b a = true)
    (htrans : ∀ a b c, le a b = true → le b c = true → le a c = true) :
    ∀ (n : Nat) (l : List α), l.length ≤ n → SortedB le (merge_sort_fuel le n l) := by
  intro n
  induction n with
  | zero =>
    intro l hl
    have : l = [] := by cases l <;> simp_all
    subst this
    simp [merge_sort_fuel, SortedB]
  | succ n ih =>
    intro l hl
    rw [merge_sort_fuel]
    split
    · next hlen1 =>
      cases l with
      | nil => simp [SortedB]
      | cons a l' =>
        cases l' with
        | nil => simp [SortedB]
        | cons b l'' => simp at hlen1
    · next hlen1 =>
      have h2 : 2 ≤ l.length := by
        rcases Nat.lt_or_ge 1 l.length with h | h
        · omega
        · exact absurd h (by simpa using hlen1)
      apply merge_fuel_sorted htot htrans
      · rw [(merge_sort_fuel_perm le n (l.take (l.length / 2))).length_eq,
          (merge_sort_fuel_perm le n (l.drop (l.length / 2))).length_eq,
          List.length_take, List.length_drop]
        omega
      · exact ih _ (by rw [List.length_take]; omega)
      · exact ih _ (by rw [List.length_drop]; omega)

theorem key_le_iff (a b : Nat × Nat × Nat × Nat) :
    key_le a b = true ↔
      (a.1 < b.1 ∨ (a.1 = b.1 ∧ (a.2.1 < b.2.1 ∨ (a.2.1 = b.2.1 ∧
        (a.2.2.1 < b.2.2.1 ∨ (a.2.2.1 = b.2.2.1 ∧ a.2.2.2 ≤ b.2.2.2)))))) := by
  unfold key_le
  simp [Bool.or_eq_true, Bool.and_eq_true, decide_eq_true_eq]

theorem key_le_refl (a : Nat × Nat × Nat × Nat) : key_le a a = true := by
  rw [key_le_iff]; omega

theorem key_le_total (a b : Nat × Nat × Nat × Nat) :
    key_le a b = true ∨ key_le b a = true := by
  rw [key_le_iff, key_le_iff]; omega

theorem key_le_trans (a b c : Nat × Nat × Nat × Nat) :
    key_le a b = true → key_le b c = true → key_le a c = true := by
  rw [key_le_iff, key_le_iff, key_le_iff]; omega

/-- The head of `sort_by_key` is a member with minimal key. -/
theorem sort_by_key_head_spec (routes : List (List Dart)) (dout : Bool)
    (r0 : List Dart) (h0 : r0 ∈ routes) :
    ∃ r rest, sort_by_key routes dout = r :: rest ∧ r ∈ routes ∧
      ∀ r' ∈ routes, key_le (route_weight r dout) (route_weight r' dout) = true := by
  unfold sort_by_key
  have hperm := merge_sort_fuel_perm (fun a b : (List Dart) × (Nat × Nat × Nat × Nat) =>
      key_le a.2 b.2)
    (routes.map fun r => (r, route_weight r dout)).length
    (routes.map fun r => (r, route_weight r dout))
  have hsorted := @merge_sort_fuel_sorted ((List Dart) × (Nat × Nat × Nat × Nat))
    (fun a b => key_le a.2 b.2)
    (fun a b => key_le_total a.2 b.2) (fun a b c => key_le_trans a.2 b.2 c.2)
    (routes.map fun r => (r, route_weight r dout)).length
    (routes.map fun r => (r, route_weight r dout)) le_rfl
  cases hs : merge_sort_fuel (fun a b : (List Dart) × (Nat × Nat × Nat × Nat) =>
      key_le a.2 b.2)
    (routes.map fun r => (r, route_weight r dout)).length
    (routes.map fun r => (r, route_weight r dout)) with
  | nil =>
    exfalso
    rw [hs] at hperm
    have hmem : (r0, route_weight r0 dout) ∈
        routes.map fun r => (r, route_weight r dout) :=
      List.mem_map_of_mem _ h0
    rw [← hperm.mem_iff] at hmem
    cases hmem
  | cons p tl =>
    rw [hs] at hperm hsorted
    have hp : p ∈ routes.map fun r => (r, route_weight r dout) :=
      hperm.mem_iff.mp (List.mem_cons_self p tl)
    obtain ⟨r, hrmem, hre⟩ := List.mem_map.mp hp
    refine ⟨p.1, tl.map (·.1), by first | rfl | (rw [hs]; rfl), ?_, ?_⟩
    · rw [← hre]; exact hrmem
    · intro r' hr'
      have hk' : (r', route_weight r' dout) ∈
          routes.map fun r => (r, route_weight r dout) :=
        List.mem_map_of_mem _ hr'
      have hmem2 : (r', route_weight r' dout) ∈ p :: tl := hperm.mem_iff.mpr hk'
      have hp2 : route_weight p.1 dout = p.2 := by rw [← hre]
      rcases List.mem_cons.mp hmem2 with he | htl
      · rw [hp2, ← he]
        exact key_le_refl _
      · rw [hp2]
        have := (List.pairwise_cons.mp hsorted).1 _ htl
        exact this

/-! #### Membership facts for `suggest_checkouts` -/

theorem sort_by_key_mem {routes : List (List Dart)} {dout : Bool} {r : List Dart}
    (h : r ∈ sort_by_key routes dout) : r ∈ routes := by
  unfold sort_by_key at h
  obtain ⟨p, hp, hpe⟩ := List.mem_map.mp h
  have hp2 := (merge_sort_fuel_perm _ _ _).mem_iff.mp hp
  obtain ⟨r', hr', hre⟩ := List.mem_map.mp hp2
  rw [← hpe, ← hre]
  exact hr'

theorem dedup_take_mem {limit : Int} :
    ∀ {seen : List String} {count : Int} {l : List (List Dart)}
      {s : CheckoutSuggestion}, s ∈ dedup_take limit seen count l → s.darts ∈ l := by
  intro seen count l
  induction l generalizing seen count with
  | nil => intro s h; rw [dedup_take] at h; cases h
  | cons route rest ih =>
    intro s h
    rw [dedup_take] at h
    split at h
    · exact List.mem_cons_of_mem _ (ih h)
    · split at h
      · rcases List.mem_singleton.mp h with rfl
        exact List.mem_cons_self _ _
      · rcases List.mem_cons.mp h with rfl | h2
        · exact List.mem_cons_self _ _
        · exact List.mem_cons_of_mem _ (ih h2)

theorem dedup_take_head (limit : Int) (route : List Dart) (rest : List (List Dart)) :
    (dedup_take limit [] 0 (route :: rest)).head? = some ⟨route⟩ := by
  rw [dedup_take]
  rw [if_neg (by simp [List.contains])]
  split <;> rfl

theorem mem_one_dart {remaining : Int} {dout : Bool} {r : List Dart}
    (h : r ∈ one_dart_routes remaining dout) :
    ∃ d1, d1 ∈ ALL_DARTS ∧ r = [d1] ∧ (d1.score : Int) = remaining ∧
      is_valid_finish d1 dout = true := by
  unfold one_dart_routes at h
  obtain ⟨d1, hd1, hre⟩ := List.mem_map.mp h
  obtain ⟨hmem, hpred⟩ := List.mem_filter.mp hd1
  rw [Bool.and_eq_true, beq_iff_eq] at hpred
  exact ⟨d1, hmem, hre.symm, hpred.1, hpred.2⟩

theorem mem_two_dart {remaining : Int} {dout : Bool} {r : List Dart}
    (h : r ∈ two_dart_routes remaining dout) :
    ∃ d1 d2, d1 ∈ ALL_DARTS ∧ d2 ∈ ALL_DARTS ∧ r = [d1, d2] ∧
      ((d1.score : Int) + (d2.score : Int)) = remaining ∧
      is_valid_finish d2 dout = true := by
  unfold two_dart_routes at h
  obtain ⟨d1, hd1, hmem⟩ := List.mem_flatMap.mp h
  split at hmem
  · cases hmem
  · obtain ⟨d2, hd2, hre⟩ := List.mem_map.mp hmem
    obtain ⟨hmem2, hpred⟩ := List.mem_filter.mp hd2
    rw [Bool.and_eq_true, beq_iff_eq] at hpred
    exact ⟨d1, d2, hd1, hmem2, hre.symm, by omega, hpred.2⟩

theorem mem_three_dart {remaining : Int} {dout : Bool} {r : List Dart}
    (h : r ∈ three_dart_routes remaining dout) :
    ∃ d1 d2 d3, d1 ∈ ALL_DARTS ∧ d2 ∈ ALL_DARTS ∧ d3 ∈ ALL_DARTS ∧
      r = [d1, d2, d3] ∧
      ((d1.score : Int) + (d2.score : Int) + (d3.score : Int)) = remaining ∧
      is_valid_finish d3 dout = true := by
  unfold three_dart_routes at h
  obtain ⟨d1, hd1, hmem⟩ := List.mem_flatMap.mp h
  split at hmem
  · cases hmem
  · obtain ⟨d2, hd2, hmem2⟩ := List.mem_flatMap.mp hmem
    split at hmem2
    · cases hmem2
    · obtain ⟨d3, hd3, hre⟩ := List.mem_map.mp hmem2
      obtain ⟨hmem3, hpred⟩ := List.mem_filter.mp hd3
      rw [Bool.and_eq_true, beq_iff_eq] at hpred
      exact ⟨d1, d2, d3, hd1, hd2, hmem3, hre.symm, by omega, hpred.2⟩

/-- The route pool `suggestions` assembled by `suggest_checkouts`. -/
def route_pool (remaining : Int) (dout : Bool) (md : Nat) : List (List Dart) :=
  (if 1 ≤ md then one_dart_routes remaining dout else []) ++
  (if 2 ≤ md then two_dart_routes remaining dout else []) ++
  (if 3 ≤ md then three_dart_routes remaining dout else [])

theorem mem_route_pool {remaining : Int} {dout : Bool} {md : Nat} {r : List Dart}
    (h : r ∈ route_pool remaining dout md) :
    ((r.map Dart.score).sum : Int) = remaining ∧
    is_valid_finish (r.getLastD ⟨0, 0⟩) dout = true ∧
    ((∃ d1, d1 ∈ ALL_DARTS ∧ r = [d1]) ∨ 2 ≤ r.length) := by
  unfold route_pool at h
  rcases List.mem_append.mp h with h12 | h3
  · rcases List.mem_append.mp h12 with h1 | h2
    · split at h1
      · obtain ⟨d1, hd1, rfl, hsc, hval⟩ := mem_one_dart h1
        refine ⟨by simpa using hsc, by simpa using hval, Or.inl ⟨d1, hd1, rfl⟩⟩
      · cases h1
    · split at h2
      · obtain ⟨d1, d2, hd1, hd2, rfl, hsc, hval⟩ := mem_two_dart h2
        refine ⟨by push_cast; simpa using hsc, by simpa using hval, Or.inr (by simp)⟩
      · cases h2
  · split at h3
    · obtain ⟨d1, d2, d3, hd1, hd2, hd3, rfl, hsc, hval⟩ := mem_three_dart h3
      refine ⟨by push_cast; simp; omega, by simpa using hval, Or.inr (by simp)⟩
    · cases h3

/-- On the main path (positive remaining, valid max_darts, positive limit, no
fast reject) `suggest_checkouts` returns the deduplicated, sorted route pool. -/
theorem suggest_checkouts_main (remaining : Int) (dout : Bool) (md : Nat) (limit : Int)
    (hpos : 0 < remaining) (hmd : md = 1 ∨ md = 2 ∨ md = 3) (hlim : 0 < limit)
    (h170 : dout = true → remaining ≤ 170) :
    suggest_checkouts remaining dout md limit
      = .ok (dedup_take limit [] 0
          (sort_by_key (route_pool remaining dout md) dout)) := by
  unfold suggest_checkouts route_pool
  rw [if_neg (by omega), if_neg ?hmd, if_neg (by omega), if_neg ?h170]
  case hmd => rcases hmd with rfl | rfl | rfl <;> decide
  case h170 =>
    rcases Bool.eq_false_or_eq_true dout with hd | hd
    · rw [hd]
      simp only [Bool.true_and, decide_eq_true_eq]
      have := h170 hd
      omega
    · rw [hd]
      simp

/-- When a unique single dart finishes `remaining` under double-out, it heads
the suggestion list (fewer darts always rank first). -/
theorem suggest_head_single (remaining : Int) (hpos : 0 < remaining)
    (h170 : remaining ≤ 170) (d0 : Dart)
    (hd0 : [d0] ∈ one_dart_routes remaining true)
    (huniq : ∀ d1 ∈ ALL_DARTS, (d1.score : Int) = remaining →
      is_valid_finish d1 true = true → d1 = d0) :
    ((suggest_checkouts remaining true 3 6).toOption.getD []).head?.map
      CheckoutSuggestion.darts = some [d0] := by
  rw [suggest_checkouts_main remaining true 3 6 hpos (Or.inr (Or.inr rfl))
    (by omega) (fun _ => h170)]
  have hpool : [d0] ∈ route_pool remaining true 3 := by
    unfold route_pool
    refine List.mem_append.mpr (Or.inl (List.mem_append.mpr (Or.inl ?_)))
    rw [if_pos (by omega)]
    exact hd0
  obtain ⟨r, rest, hsort, hrmem, hmin⟩ :=
    sort_by_key_head_spec (route_pool remaining true 3) true [d0] hpool
  show (dedup_take 6 [] 0
      (sort_by_key (route_pool remaining true 3) true)).head?.map
    CheckoutSuggestion.darts = some [d0]
  rw [hsort, dedup_take_head]
  obtain ⟨hsum, hval, hshape⟩ := mem_route_pool hrmem
  have hle := hmin [d0] hpool
  rw [key_le_iff] at hle
  have h1 : (route_weight r true).1 = r.length := rfl
  have h2 : (route_weight [d0] true).1 = 1 := rfl
  have hlen : r.length ≤ 1 := by omega
  rcases hshape with ⟨d1, hd1, rfl⟩ | hlen2
  · have he : d1 = d0 := huniq d1 hd1 (by simpa using hsum) (by simpa using hval)
    rw [he]
    rfl
  · omega

/-- C6: `suggest_checkouts(40, double_out=true)`'s first suggestion is exactly
D20; `suggest_checkouts(50, double_out=true)`'s first suggestion is exactly
the double bull; `suggest_checkouts(171, double_out=true)` is empty; and, with
`max_darts` in the documented domain {1,2,3}, `remaining ≤ 0` or `limit ≤ 0`
returns the empty sequence without raising (`remaining ≤ 0` needs no domain
assumption: it is checked first). -/
theorem C6_concrete_suggestions :
    ((suggest_checkouts 40 true 3 6).toOption.getD []).head?.map
      CheckoutSuggestion.darts = some [⟨20, 2⟩] ∧
    ((suggest_checkouts 50 true 3 6).toOption.getD []).head?.map
      CheckoutSuggestion.darts = some [⟨25, 2⟩] ∧
    suggest_checkouts 171 true 3 6 = .ok [] ∧
    (∀ (remaining : Int) (dout : Bool) (md : Nat) (limit : Int), remaining ≤ 0 →
      suggest_checkouts remaining dout md limit = .ok []) ∧
    (∀ (remaining : Int) (dout : Bool) (md : Nat) (limit : Int), limit ≤ 0 →
      (md = 1 ∨ md = 2 ∨ md = 3) →
      suggest_checkouts remaining dout md limit = .ok []) := by
  refine ⟨?_, ?_, ?_, ?_, ?_⟩
  · exact suggest_head_single 40 (by omega) (by omega) ⟨20, 2⟩ (by decide) (by decide)
  · exact suggest_head_single 50 (by omega) (by omega) ⟨25, 2⟩ (by decide) (by decide)
  · rfl
  · intro remaining dout md limit hneg
    unfold suggest_checkouts
    rw [if_pos hneg]
  · intro remaining dout md limit hlim hmd
    unfold suggest_checkouts
    split
    · rfl
    · rw [if_neg (by rcases hmd with rfl | rfl | rfl <;> decide)]

/-- Witness for C6's universally quantified parts at concrete inputs. -/
theorem C6_witness :
    suggest_checkouts (-5) true 3 6 = .ok [] ∧
    suggest_checkouts 40 true 2 0 = .ok [] :=
  ⟨C6_concrete_suggestions.2.2.2.1 (-5) true 3 6 (by omega),
   C6_concrete_suggestions.2.2.2.2 40 true 2 0 (by omega) (Or.inr (Or.inl rfl))⟩

/-- C5 (amended): every returned route sums exactly to `remaining`, and when
`double_out` is true its final dart is a double.  (The "iff" of the original
claim fails: with `double_out = false` a route may still end on a double.) -/
theorem C5_route_soundness (remaining : Int) (dout : Bool) (md : Nat) (limit : Int)
    (out : List CheckoutSuggestion)
    (hpos : 0 < remaining) (hmd : md = 1 ∨ md = 2 ∨ md = 3) (hlim : 0 < limit)
    (hok : suggest_checkouts remaining dout md limit = .ok out) :
    ∀ s ∈ out, ((s.darts.map Dart.score).sum : Int) = remaining ∧
      (dout = true → (s.darts.getLastD ⟨0, 0⟩).isDouble = true) := by
  intro s hs
  by_cases h170 : dout = true ∧ 170 < remaining
  · obtain ⟨hd, hgt⟩ := h170
    unfold suggest_checkouts at hok
    rw [if_neg (by omega)] at hok
    rw [if_neg (by rcases hmd with rfl | rfl | rfl <;> decide)] at hok
    rw [if_neg (by omega)] at hok
    rw [if_pos (by rw [hd]; simp only [Bool.true_and, decide_eq_true_eq]; omega)] at hok
    injection hok with hok
    rw [← hok] at hs
    cases hs
  · have h170' : dout = true → remaining ≤ 170 := by
      intro hd
      by_contra hgt
      exact h170 ⟨hd, by omega⟩
    rw [suggest_checkouts_main remaining dout md limit hpos hmd hlim h170'] at hok
    injection hok with hok
    rw [← hok] at hs
    have hmem := sort_by_key_mem (dedup_take_mem hs)
    obtain ⟨hsum, hval, _⟩ := mem_route_pool hmem
    refine ⟨hsum, fun hd => ?_⟩
    rw [hd] at hval
    simpa [is_valid_finish] using hval

/-- Counterexample to C5 as stated: with `double_out = false`, remaining 2 and
`max_darts = 1` the first suggestion is D1, whose (final) dart *is* a double
even though double-out is off — "last dart is a double iff double_out" fails. -/
theorem C5_counterexample :
    (suggest_checkouts 2 false 1 6).toOption
      = some [⟨[⟨1, 2⟩]⟩, ⟨[⟨2, 1⟩]⟩] ∧ (⟨1, 2⟩ : Dart).isDouble = true :=
  ⟨by decide, by decide⟩

/-- Witness for C5 (amended) at a concrete call. -/
theorem C5_witness :
    ((([⟨1, 2⟩] : List Dart).map Dart.score).sum : Int) = 2 ∧
    (true = true → (([⟨1, 2⟩] : List Dart).getLastD ⟨0, 0⟩).isDouble = true) :=
  C5_route_soundness 2 true 1 6 [⟨[⟨1, 2⟩]⟩] (by omega) (Or.inl rfl) (by omega)
    (by rfl) ⟨[⟨1, 2⟩]⟩ (List.mem_singleton.mpr rfl)

/-! ### stats.py -/

/-- `PlayerStats` from `stats.py` (the two derived float `@property` averages
are not modelled; no claim concerns them). -/
structure PlayerStats where
  player_id : Nat
  visits : Nat
  darts_thrown : Nat
  scored_points : Nat
  busts : Nat
  checkouts : Nat
  checkout_attempts : Nat
  highest_visit : Nat
  count_180 : Nat
  count_140_plus : Nat
  count_100_plus : Nat
deriving DecidableEq, Repr

/-- `_is_checkout_attempt`. -/
def is_checkout_attempt (v : VisitResult) (double_out : Bool) : Bool :=
  if v.remaining_before ≤ 1 then false
  else if double_out then decide (v.remaining_before ≤ 170)
  else decide (v.remaining_before ≤ 180)

/-- `_accumulate`: the pure fold over one player's visits. -/
def accumulate (player_id : Nat) (visits : List VisitResult) (double_out : Bool) :
    PlayerStats :=
  { player_id := player_id
    visits := (visits.filter fun v => v.player_id == player_id).length
    darts_thrown :=
      ((visits.filter fun v => v.player_id == player_id).map fun v => v.darts.length).sum
    scored_points :=
      (((visits.filter fun v => v.player_id == player_id).filter
        fun v => !v.bust).map (·.total)).sum
    busts := ((visits.filter fun v => v.player_id == player_id).filter
      fun v => v.bust).length
    checkouts := ((visits.filter fun v => v.player_id == player_id).filter
      fun v => v.checkout).length
    checkout_attempts := ((visits.filter fun v => v.player_id == player_id).filter
      fun v => is_checkout_attempt v double_out).length
    highest_visit :=
      match ((visits.filter fun v => v.player_id == player_id).filter
          fun v => !v.bust).map (·.total) with
      | [] => 0
      | t :: ts => ts.foldl Nat.max t
    count_180 := ((visits.filter fun v => v.player_id == player_id).filter
      fun v => !v.bust && v.total == 180).length
    count_140_plus := ((visits.filter fun v => v.player_id == player_id).filter
      fun v => !v.bust && decide (140 ≤ v.total)).length
    count_100_plus := ((visits.filter fun v => v.player_id == player_id).filter
      fun v => !v.bust && decide (100 ≤ v.total)).length }

/-- `MatchStats` / `compute_match_stats`. -/
structure MatchStats where
  player_1 : PlayerStats
  player_2 : PlayerStats
deriving DecidableEq, Repr

def compute_match_stats (state : MatchState) : MatchStats :=
  { player_1 := accumulate 1 state.history state.config.double_out
    player_2 := accumulate 2 state.history state.config.double_out }

/-- C8: a bust visit contributes nothing to scored_points, highest_visit or the
milestone counts, but still counts one visit and its darts in darts_thrown. -/
theorem C8_bust_visits (pid : Nat) (h : List VisitResult) (v : VisitResult)
    (dout : Bool) (hp : v.player_id = pid) (hb : v.bust = true) :
    (accumulate pid (h ++ [v]) dout).scored_points
      = (accumulate pid h dout).scored_points ∧
    (accumulate pid (h ++ [v]) dout).highest_visit
      = (accumulate pid h dout).highest_visit ∧
    (accumulate pid (h ++ [v]) dout).count_180
      = (accumulate pid h dout).count_180 ∧
    (accumulate pid (h ++ [v]) dout).count_140_plus
      = (accumulate pid h dout).count_140_plus ∧
    (accumulate pid (h ++ [v]) dout).count_100_plus
      = (accumulate pid h dout).count_100_plus ∧
    (accumulate pid (h ++ [v]) dout).visits
      = (accumulate pid h dout).visits + 1 ∧
    (accumulate pid (h ++ [v]) dout).darts_thrown
      = (accumulate pid h dout).darts_thrown + v.darts.length := by
  refine ⟨?_, ?_, ?_, ?_, ?_, ?_, ?_⟩ <;>
    simp [accumulate, List.filter_append, List.map_append, List.sum_append,
      List.length_append, hp, hb]

/-- Witness for C8: one busted visit (tried 12 from 10) scores nothing but
counts as a visit. -/
theorem C8_witness :
    (accumulate 1 [⟨1, [⟨4, 3⟩], 12, true, false, 10, 10⟩] true).scored_points = 0 ∧
    (accumulate 1 [⟨1, [⟨4, 3⟩], 12, true, false, 10, 10⟩] true).visits = 1 := by
  have hfull := C8_bust_visits 1 [] ⟨1, [⟨4, 3⟩], 12, true, false, 10, 10⟩ true rfl rfl
  constructor
  · have h1 := hfull.1
    simpa using h1
  · have h2 := hfull.2.2.2.2.2.1
    simpa using h2

/-! ### dartboard.py

Float arithmetic (`math.hypot`, `math.atan2`, `%` on floats) is modelled over
the real numbers. -/

/-- `SECTOR_ORDER`: 20 at 12 o'clock, then clockwise. -/
def SECTOR_ORDER : List Nat :=
  [20, 1, 18, 4, 13, 6, 10, 15, 2, 17, 3, 19, 7, 16, 8, 11, 14, 9, 12, 5]

/-- `DartboardRingRatios` with its WDF-ish defaults. -/
structure DartboardRingRatios where
  inner_bull_r : ℝ := 0.037
  outer_bull_r : ℝ := 0.094
  triple_inner_r : ℝ := 0.582
  triple_outer_r : ℝ := 0.629
  double_inner_r : ℝ := 0.953
  double_outer_r : ℝ := 1.0

/-- `DartboardRingRatios.__post_init__`: positive, strictly increasing
(except `double_outer ≥ double_inner`). -/
def DartboardRingRatios.valid (r : DartboardRingRatios) : Prop :=
  0 < r.inner_bull_r ∧ r.inner_bull_r < r.outer_bull_r ∧
  r.outer_bull_r < r.triple_inner_r ∧ r.triple_inner_r < r.triple_outer_r ∧
  r.triple_outer_r < r.double_inner_r ∧ r.double_inner_r ≤ r.double_outer_r

/-- `DartboardCalibration`. -/
structure DartboardCalibration where
  center_x : ℝ
  center_y : ℝ
  radius_px : ℝ
  rotation_deg : ℝ := 0.0
  rings : DartboardRingRatios := {}

/-- A Python `DartboardCalibration` instance always has `radius_px > 0`
(its `__post_init__`) and validated rings (theirs). -/
def DartboardCalibration.valid (c : DartboardCalibration) : Prop :=
  0 < c.radius_px ∧ c.rings.valid

/-- `DartScore`. -/
structure DartScore where
  x : ℝ
  y : ℝ
  value : Nat
  multiplier : Nat
  score : Nat
  ring : String
  sector : Option Nat
  angle_deg : ℝ
  radius_ratio : ℝ
  confidence : ℝ

/-- Python's `%` for floats with divisor 360 (result in [0, 360)). -/
noncomputable def fmod360 (a : ℝ) : ℝ := a - 360 * ⌊a / 360⌋

/-- `_normalize_angle_deg` (the defensive `if a < 0` branch never fires over
the reals, as over floats). -/
noncomputable def normalize_angle_deg (a : ℝ) : ℝ :=
  if fmod360 a < 0 then fmod360 a + 360 else fmod360 a

/-- `math.atan2` (C99 semantics over the reals; the signed-zero distinctions
of IEEE inputs cannot arise on ℝ, and `atan2(0, 0) = 0` as in IEEE). -/
noncomputable def atan2 (y x : ℝ) : ℝ :=
  if 0 < x then Real.arctan (y / x)
  else if x < 0 then
    (if 0 ≤ y then Real.arctan (y / x) + Real.pi else Real.arctan (y / x) - Real.pi)
  else
    (if 0 < y then Real.pi / 2 else if y < 0 then -(Real.pi / 2) else 0)

/-- `_sector_from_angle_deg`.  `int()` truncates toward zero; its operand
`((angle + 9) % 360) // 18` is non-negative, so it equals the floor.  The
index is below 20, so the out-of-range default 0 of `getD` is unreachable. -/
noncomputable def sector_from_angle_deg (angle_from_up_deg : ℝ) : Nat :=
  SECTOR_ORDER.getD
    (Int.toNat ⌊fmod360 (normalize_angle_deg angle_from_up_deg + 9) / 18⌋) 0

/-- The classification tail of `score_dart_pixel` (lines 143–209), once the
radius ratio and board angle are known. -/
noncomputable def classify_point (x y : ℝ) (calib : DartboardCalibration)
    (rr angle_from_up conf : ℝ) : DartScore :=
  if calib.rings.double_outer_r < rr then
    ⟨x, y, 0, 0, 0, "miss", none, angle_from_up, rr, conf⟩
  else if rr ≤ calib.rings.inner_bull_r then
    ⟨x, y, 25, 2, 50, "dbull", none, angle_from_up, rr, conf⟩
  else if rr ≤ calib.rings.outer_bull_r then
    ⟨x, y, 25, 1, 25, "bull", none, angle_from_up, rr, conf⟩
  else
    if calib.rings.double_inner_r ≤ rr ∧ rr ≤ calib.rings.double_outer_r then
      ⟨x, y, sector_from_angle_deg angle_from_up, 2,
       sector_from_angle_deg angle_from_up * 2, "double",
       some (sector_from_angle_deg angle_from_up), angle_from_up, rr, conf⟩
    else if calib.rings.triple_inner_r ≤ rr ∧ rr ≤ calib.rings.triple_outer_r then
      ⟨x, y, sector_from_angle_deg angle_from_up, 3,
       sector_from_angle_deg angle_from_up * 3, "triple",
       some (sector_from_angle_deg angle_from_up), angle_from_up, rr, conf⟩
    else
      ⟨x, y, sector_from_angle_deg angle_from_up, 1,
       sector_from_angle_deg angle_from_up * 1, "single",
       some (sector_from_angle_deg angle_from_up), angle_from_up, rr, conf⟩

/-- `score_dart_pixel`.  The `radius_px == 0 → inf` guard is dead code for
valid calibrations (`radius_px > 0`) and is not modelled. -/
noncomputable def score_dart_pixel (x y : ℝ) (calib : DartboardCalibration)
    (confidence : ℝ) : DartScore :=
  classify_point x y calib
    (Real.sqrt ((x - calib.center_x) ^ 2 + (y - calib.center_y) ^ 2) / calib.radius_px)
    (normalize_angle_deg
      (normalize_angle_deg
        (90 - (180 / Real.pi) * atan2 (-(y - calib.center_y)) (x - calib.center_x))
        + calib.rotation_deg))
    (max 0 (min 1 confidence))

/-- `score_darts`: batch scoring plus total. -/
noncomputable def score_darts (darts : List (ℝ × ℝ × ℝ))
    (calib : DartboardCalibration) : List DartScore × Nat :=
  (darts.map fun t => score_dart_pixel t.1 t.2.1 calib t.2.2,
   ((darts.map fun t => score_dart_pixel t.1 t.2.1 calib t.2.2).map (·.score)).sum)

/-! #### Angle and classification lemmas for C7 -/

theorem fmod360_eq_self {a : ℝ} (h1 : 0 ≤ a) (h2 : a < 360) : fmod360 a = a := by
  unfold fmod360
  rw [show ⌊a / 360⌋ = 0 from Int.floor_eq_zero_iff.mpr
    ⟨by positivity, by rw [div_lt_one (by norm_num)]; linarith⟩]
  simp

theorem fmod360_nonneg (a : ℝ) : 0 ≤ fmod360 a := by
  unfold fmod360
  have h := Int.floor_le (a / 360)
  have h2 : (360 : ℝ) * ⌊a / 360⌋ ≤ 360 * (a / 360) := by
    apply mul_le_mul_of_nonneg_left h
    norm_num
  have h3 : (360 : ℝ) * (a / 360) = a := by ring
  linarith

theorem fmod360_lt (a : ℝ) : fmod360 a < 360 := by
  unfold fmod360
  have h := Int.lt_floor_add_one (a / 360)
  have h2 : (360 : ℝ) * (a / 360) < 360 * (⌊a / 360⌋ + 1) := by
    apply mul_lt_mul_of_pos_left h
    norm_num
  have h3 : (360 : ℝ) * (a / 360) = a := by ring
  push_cast at h2
  linarith

theorem normalize_eq_fmod (a : ℝ) : normalize_angle_deg a = fmod360 a := by
  unfold normalize_angle_deg
  rw [if_neg (not_lt.mpr (fmod360_nonneg a))]

theorem normalize_eq_self {a : ℝ} (h1 : 0 ≤ a) (h2 : a < 360) :
    normalize_angle_deg a = a := by
  rw [normalize_eq_fmod, fmod360_eq_self h1 h2]

theorem atan2_pos_zero {y : ℝ} (hy : 0 < y) : atan2 y 0 = Real.pi / 2 := by
  unfold atan2
  rw [if_neg (lt_irrefl 0), if_neg (lt_irrefl 0), if_pos hy]

theorem atan2_zero_pos {x : ℝ} (hx : 0 < x) : atan2 0 x = 0 := by
  unfold atan2
  rw [if_pos hx, zero_div, Real.arctan_zero]

theorem atan2_zero_zero : atan2 0 0 = 0 := by
  unfold atan2
  rw [if_neg (lt_irrefl 0), if_neg (lt_irrefl 0), if_neg (lt_irrefl 0),
    if_neg (lt_irrefl 0)]

theorem degrees_pi_half : (180 / Real.pi) * (Real.pi / 2) = 90 := by
  have hpi := Real.pi_ne_zero
  field_simp
  ring

theorem sector_from_angle_zero : sector_from_angle_deg 0 = 20 := by
  unfold sector_from_angle_deg
  rw [normalize_eq_self le_rfl (by norm_num)]
  rw [show (0 : ℝ) + 9 = 9 by norm_num]
  rw [fmod360_eq_self (by norm_num) (by norm_num)]
  rw [show ⌊(9 : ℝ) / 18⌋ = 0 by norm_num]
  decide

theorem sector_from_angle_ninety : sector_from_angle_deg 90 = 6 := by
  unfold sector_from_angle_deg
  rw [normalize_eq_self (by norm_num) (by norm_num)]
  rw [show (90 : ℝ) + 9 = 99 by norm_num]
  rw [fmod360_eq_self (by norm_num) (by norm_num)]
  rw [show ⌊(99 : ℝ) / 18⌋ = 5 by norm_num]
  decide

theorem score_up_axis (calib : DartboardCalibration) (conf t : ℝ)
    (hR : 0 < calib.radius_px) (ht : 0 < t) :
    score_dart_pixel calib.center_x (calib.center_y - t * calib.radius_px) calib conf
      = classify_point calib.center_x (calib.center_y - t * calib.radius_px) calib t
          (normalize_angle_deg (0 + calib.rotation_deg)) (max 0 (min 1 conf)) := by
  unfold score_dart_pixel
  rw [sub_self]
  rw [show calib.center_y - t * calib.radius_px - calib.center_y
      = -(t * calib.radius_px) by ring]
  rw [show ((0 : ℝ) ^ 2 + (-(t * calib.radius_px)) ^ 2) = (t * calib.radius_px) ^ 2
      by ring]
  rw [Real.sqrt_sq (by positivity)]
  rw [neg_neg]
  rw [atan2_pos_zero (by positivity)]
  rw [degrees_pi_half]
  rw [show (90 : ℝ) - 90 = 0 by norm_num]
  rw [normalize_eq_self le_rfl (by norm_num)]
  rw [mul_div_assoc, div_self (ne_of_gt hR), mul_one]

theorem classify_point_dbull {x y : ℝ} {calib : DartboardCalibration}
    {rr angle conf : ℝ} (hv : calib.valid) (h : rr ≤ calib.rings.inner_bull_r) :
    ((classify_point x y calib rr angle conf).value,
     (classify_point x y calib rr angle conf).multiplier,
     (classify_point x y calib rr angle conf).score) = (25, 2, 50) := by
  obtain ⟨hR, h1, h2, h3, h4, h5, h6⟩ := hv
  unfold classify_point
  rw [if_neg (not_lt.mpr (by linarith)), if_pos h]

theorem classify_point_sbull {x y : ℝ} {calib : DartboardCalibration}
    {rr angle conf : ℝ} (hv : calib.valid)
    (hlo : calib.rings.inner_bull_r < rr) (h : rr ≤ calib.rings.outer_bull_r) :
    ((classify_point x y calib rr angle conf).value,
     (classify_point x y calib rr angle conf).multiplier,
     (classify_point x y calib rr angle conf).score) = (25, 1, 25) := by
  obtain ⟨hR, h1, h2, h3, h4, h5, h6⟩ := hv
  unfold classify_point
  rw [if_neg (not_lt.mpr (by linarith)), if_neg (not_le.mpr hlo), if_pos h]

theorem classify_point_miss {x y : ℝ} {calib : DartboardCalibration}
    {rr angle conf : ℝ} (h : calib.rings.double_outer_r < rr) :
    ((classify_point x y calib rr angle conf).value,
     (classify_point x y calib rr angle conf).multiplier,
     (classify_point x y calib rr angle conf).score) = (0, 0, 0) := by
  unfold classify_point
  rw [if_pos h]

theorem classify_point_double {x y : ℝ} {calib : DartboardCalibration}
    {rr angle conf : ℝ} (hv : calib.valid)
    (hlo : calib.rings.double_inner_r ≤ rr) (hhi : rr ≤ calib.rings.double_outer_r) :
    ((classify_point x y calib rr angle conf).value,
     (classify_point x y calib rr angle conf).multiplier,
     (classify_point x y calib rr angle conf).score)
      = (sector_from_angle_deg angle, 2, sector_from_angle_deg angle * 2) := by
  obtain ⟨hR, h1, h2, h3, h4, h5, h6⟩ := hv
  unfold classify_point
  rw [if_neg (not_lt.mpr hhi), if_neg (not_le.mpr (by linarith)),
    if_neg (not_le.mpr (by linarith)), if_pos ⟨hlo, hhi⟩]

theorem classify_point_single {x y : ℝ} {calib : DartboardCalibration}
    {rr angle conf : ℝ} (hv : calib.valid)
    (hlo : calib.rings.outer_bull_r < rr) (hhi : rr ≤ calib.rings.double_outer_r)
    (hnd : rr < calib.rings.double_inner_r)
    (hnt : ¬(calib.rings.triple_inner_r ≤ rr ∧ rr ≤ calib.rings.triple_outer_r)) :
    ((classify_point x y calib rr angle conf).value,
     (classify_point x y calib rr angle conf).multiplier,
     (classify_point x y calib rr angle conf).score)
      = (sector_from_angle_deg angle, 1, sector_from_angle_deg angle * 1) := by
  obtain ⟨hR, h1, h2, h3, h4, h5, h6⟩ := hv
  unfold classify_point
  rw [if_neg (not_lt.mpr hhi), if_neg (not_le.mpr (by linarith)),
    if_neg (not_le.mpr hlo), if_neg (by push_neg; intro hc; linarith), if_neg hnt]


theorem score_up_axis_double (calib : DartboardCalibration) (conf t : ℝ)
    (hv : calib.valid) (hrot : calib.rotation_deg = 0)
    (hlo : calib.rings.double_inner_r ≤ t) (hhi : t ≤ calib.rings.double_outer_r) :
    ((score_dart_pixel calib.center_x (calib.center_y - t * calib.radius_px)
        calib conf).value,
     (score_dart_pixel calib.center_x (calib.center_y - t * calib.radius_px)
        calib conf).multiplier,
     (score_dart_pixel calib.center_x (calib.center_y - t * calib.radius_px)
        calib conf).score) = (20, 2, 40) := by
  have ht : 0 < t := by
    obtain ⟨hR, h1, h2, h3, h4, h5, h6⟩ := hv
    linarith
  rw [score_up_axis calib conf t hv.1 ht]
  rw [hrot, show (0 : ℝ) + 0 = 0 by norm_num, normalize_eq_self le_rfl (by norm_num)]
  rw [classify_point_double hv hlo hhi]
  rw [sector_from_angle_zero]

/-- C7 (amended): for every valid calibration the exact board-center point is
double bull (25,2,50) and any point with radius ratio beyond `double_outer` is
a miss (0,0,0); a point on the vertical up-axis at radius ratio in
(inner_bull, outer_bull] — e.g. the default 0.094, not 94% — is single bull;
with rotation offset 0, the up-axis (top) point with ratio between
`double_inner` and `double_outer` is (20,2,40); and adding +90° to the
rotation maps the old top sector 20 to sector 6, the sector previously at
+90° clockwise. -/
theorem C7_geometry_mapping :
    (∀ (calib : DartboardCalibration) (conf : ℝ), calib.valid →
      ((score_dart_pixel calib.center_x calib.center_y calib conf).value,
       (score_dart_pixel calib.center_x calib.center_y calib conf).multiplier,
       (score_dart_pixel calib.center_x calib.center_y calib conf).score)
        = (25, 2, 50)) ∧
    (∀ (calib : DartboardCalibration) (conf t : ℝ), calib.valid →
      calib.rings.inner_bull_r < t → t ≤ calib.rings.outer_bull_r →
      ((score_dart_pixel calib.center_x (calib.center_y - t * calib.radius_px)
          calib conf).value,
       (score_dart_pixel calib.center_x (calib.center_y - t * calib.radius_px)
          calib conf).multiplier,
       (score_dart_pixel calib.center_x (calib.center_y - t * calib.radius_px)
          calib conf).score) = (25, 1, 25)) ∧
    (∀ (calib : DartboardCalibration) (conf t : ℝ), calib.valid →
      calib.rotation_deg = 0 →
      calib.rings.double_inner_r ≤ t → t ≤ calib.rings.double_outer_r →
      ((score_dart_pixel calib.center_x (calib.center_y - t * calib.radius_px)
          calib conf).value,
       (score_dart_pixel calib.center_x (calib.center_y - t * calib.radius_px)
          calib conf).multiplier,
       (score_dart_pixel calib.center_x (calib.center_y - t * calib.radius_px)
          calib conf).score) = (20, 2, 40)) ∧
    (∀ (calib : DartboardCalibration) (conf x y : ℝ), calib.valid →
      calib.rings.double_outer_r <
        Real.sqrt ((x - calib.center_x) ^ 2 + (y - calib.center_y) ^ 2)
          / calib.radius_px →
      ((score_dart_pixel x y calib conf).value,
       (score_dart_pixel x y calib conf).multiplier,
       (score_dart_pixel x y calib conf).score) = (0, 0, 0)) ∧
    ((score_dart_pixel 0 (-98) ⟨0, 0, 100, 90, {}⟩ 1).value = 6 ∧
     (score_dart_pixel 98 0 ⟨0, 0, 100, 0, {}⟩ 1).value = 6 ∧
     (score_dart_pixel 0 (-98) ⟨0, 0, 100, 0, {}⟩ 1).value = 20) := by
  refine ⟨?_, ?_, ?_, ?_, ?_, ?_, ?_⟩
  · intro calib conf hv
    unfold score_dart_pixel
    rw [sub_self, sub_self]
    rw [show ((0 : ℝ) ^ 2 + (0 : ℝ) ^ 2) = 0 by norm_num, Real.sqrt_zero, zero_div]
    exact classify_point_dbull hv (le_of_lt hv.2.1)
  · intro calib conf t hv hlo hhi
    have ht : 0 < t := lt_trans hv.2.1 hlo
    rw [score_up_axis calib conf t hv.1 ht]
    exact classify_point_sbull hv hlo hhi
  · intro calib conf t hv hrot hlo hhi
    exact score_up_axis_double calib conf t hv hrot hlo hhi
  · intro calib conf x y hv h
    unfold score_dart_pixel
    exact classify_point_miss h
  · -- rotated by 90°: top point lands in sector 6
    have hcal : (⟨0, 0, 100, 90, {}⟩ : DartboardCalibration).valid := by
      constructor
      · norm_num
      · refine ⟨?_, ?_, ?_, ?_, ?_, ?_⟩ <;> norm_num
    have key : score_dart_pixel 0 (-98) (⟨0, 0, 100, 90, {}⟩ : DartboardCalibration) 1
        = score_dart_pixel (⟨0, 0, 100, 90, {}⟩ : DartboardCalibration).center_x
            ((⟨0, 0, 100, 90, {}⟩ : DartboardCalibration).center_y
              - 0.98 * (⟨0, 0, 100, 90, {}⟩ : DartboardCalibration).radius_px)
            (⟨0, 0, 100, 90, {}⟩ : DartboardCalibration) 1 := by
      norm_num
    rw [key, score_up_axis _ 1 0.98 (by norm_num) (by norm_num)]
    rw [show (0 : ℝ) + (⟨0, 0, 100, 90, {}⟩ : DartboardCalibration).rotation_deg = 90
      by norm_num]
    rw [normalize_eq_self (by norm_num) (by norm_num)]
    have h2 := @classify_point_double
      ((⟨0, 0, 100, 90, {}⟩ : DartboardCalibration).center_x)
      ((⟨0, 0, 100, 90, {}⟩ : DartboardCalibration).center_y
        - 0.98 * (⟨0, 0, 100, 90, {}⟩ : DartboardCalibration).radius_px)
      ⟨0, 0, 100, 90, {}⟩ 0.98 (90 : ℝ) (max 0 (min 1 1))
      hcal (by norm_num) (by norm_num)
    simp only [Prod.mk.injEq] at h2
    rw [h2.1, sector_from_angle_ninety]
  · -- unrotated: the right-hand point (angle +90°) is sector 6
    have hcal : (⟨0, 0, 100, 0, {}⟩ : DartboardCalibration).valid := by
      constructor
      · norm_num
      · refine ⟨?_, ?_, ?_, ?_, ?_, ?_⟩ <;> norm_num
    unfold score_dart_pixel
    rw [show (98 : ℝ) - (⟨0, 0, 100, 0, {}⟩ : DartboardCalibration).center_x = 98
      by norm_num]
    rw [show (0 : ℝ) - (⟨0, 0, 100, 0, {}⟩ : DartboardCalibration).center_y = 0
      by norm_num]
    rw [show ((98 : ℝ) ^ 2 + (0 : ℝ) ^ 2) = 98 ^ 2 by norm_num]
    rw [Real.sqrt_sq (by norm_num)]
    rw [neg_zero, atan2_zero_pos (by norm_num), mul_zero,
      show (90 : ℝ) - 0 = 90 by norm_num]
    rw [show normalize_angle_deg (90 : ℝ) = 90 from
      normalize_eq_self (by norm_num) (by norm_num)]
    rw [show (90 : ℝ) + (⟨0, 0, 100, 0, {}⟩ : DartboardCalibration).rotation_deg = 90
      by norm_num]
    rw [show normalize_angle_deg (90 : ℝ) = 90 from
      normalize_eq_self (by norm_num) (by norm_num)]
    have h2 := @classify_point_double
      (98 : ℝ) (0 : ℝ) ⟨0, 0, 100, 0, {}⟩
      ((98 : ℝ) / (⟨0, 0, 100, 0, {}⟩ : DartboardCalibration).radius_px)
      (90 : ℝ) (max 0 (min 1 1))
      hcal (by norm_num) (by norm_num)
    simp only [Prod.mk.injEq] at h2
    rw [h2.1, sector_from_angle_ninety]
  · -- unrotated: the top point is sector 20
    have hcal : (⟨0, 0, 100, 0, {}⟩ : DartboardCalibration).valid := by
      constructor
      · norm_num
      · refine ⟨?_, ?_, ?_, ?_, ?_, ?_⟩ <;> norm_num
    have key : score_dart_pixel 0 (-98) (⟨0, 0, 100, 0, {}⟩ : DartboardCalibration) 1
        = score_dart_pixel (⟨0, 0, 100, 0, {}⟩ : DartboardCalibration).center_x
            ((⟨0, 0, 100, 0, {}⟩ : DartboardCalibration).center_y
              - 0.98 * (⟨0, 0, 100, 0, {}⟩ : DartboardCalibration).radius_px)
            (⟨0, 0, 100, 0, {}⟩ : DartboardCalibration) 1 := by
      norm_num
    rw [key]
    have h3 := score_up_axis_double (⟨0, 0, 100, 0, {}⟩ : DartboardCalibration) 1 0.98
      hcal (by norm_num) (by norm_num) (by norm_num)
    simp only [Prod.mk.injEq] at h3
    exact h3.1

/-- Counterexample to C7 as stated: on the default board geometry a point on
the up-axis at 94% of the radius is a plain single 20 (ratio 0.94 lies in the
single band between triple_outer 0.629 and double_inner 0.953), not the single
bull — the outer-bull ratio is 0.094, not 94%. -/
theorem C7_counterexample :
    (⟨0, 0, 100, 0, {}⟩ : DartboardCalibration).valid ∧
    ((score_dart_pixel 0 (-94) ⟨0, 0, 100, 0, {}⟩ 1).value,
     (score_dart_pixel 0 (-94) ⟨0, 0, 100, 0, {}⟩ 1).multiplier,
     (score_dart_pixel 0 (-94) ⟨0, 0, 100, 0, {}⟩ 1).score) = (20, 1, 20) := by
  have hcal : (⟨0, 0, 100, 0, {}⟩ : DartboardCalibration).valid := by
    constructor
    · norm_num
    · refine ⟨?_, ?_, ?_, ?_, ?_, ?_⟩ <;> norm_num
  refine ⟨hcal, ?_⟩
  have key : score_dart_pixel 0 (-94) (⟨0, 0, 100, 0, {}⟩ : DartboardCalibration) 1
      = score_dart_pixel (⟨0, 0, 100, 0, {}⟩ : DartboardCalibration).center_x
          ((⟨0, 0, 100, 0, {}⟩ : DartboardCalibration).center_y
            - 0.94 * (⟨0, 0, 100, 0, {}⟩ : DartboardCalibration).radius_px)
          (⟨0, 0, 100, 0, {}⟩ : DartboardCalibration) 1 := by
    norm_num
  rw [key, score_up_axis _ 1 0.94 (by norm_num) (by norm_num)]
  rw [show (0 : ℝ) + (⟨0, 0, 100, 0, {}⟩ : DartboardCalibration).rotation_deg = 0
    by norm_num]
  rw [normalize_eq_self le_rfl (by norm_num)]
  rw [classify_point_single hcal (by norm_num) (by norm_num) (by norm_num)
    (by norm_num)]
  rw [sector_from_angle_zero]

/-- Witness for C7 (amended) at the default calibration. -/
theorem C7_witness :
    ((score_dart_pixel (⟨0, 0, 100, 0, {}⟩ : DartboardCalibration).center_x
        (⟨0, 0, 100, 0, {}⟩ : DartboardCalibration).center_y ⟨0, 0, 100, 0, {}⟩ 1).value,
     (score_dart_pixel (⟨0, 0, 100, 0, {}⟩ : DartboardCalibration).center_x
        (⟨0, 0, 100, 0, {}⟩ : DartboardCalibration).center_y ⟨0, 0, 100, 0, {}⟩ 1).multiplier,
     (score_dart_pixel (⟨0, 0, 100, 0, {}⟩ : DartboardCalibration).center_x
        (⟨0, 0, 100, 0, {}⟩ : DartboardCalibration).center_y ⟨0, 0, 100, 0, {}⟩ 1).score)
      = (25, 2, 50) :=
  C7_geometry_mapping.1 ⟨0, 0, 100, 0, {}⟩ 1
    (by constructor
        · norm_num
        · refine ⟨?_, ?_, ?_, ?_, ?_, ?_⟩ <;> norm_num)

-- 1-leg-set, 1-set-match, start 2: D1 checks out and wins the match,
-- and the winner's legs_won stays 1 (not reset to 0).
example :
    (submitVisit (initGame (some ⟨2, true, 1, 1⟩)) [⟨1, 2⟩] none).toOption.map
      (fun g => (g.state.winner_player_id, (get_player g.state.players 1).legs_won,
                 g.state.active_player_id, (g.state.last_visit.map (·.checkout))))
      = some (some 1, 1, 1, some true) := by decide

-- starting_score 1 with double-out: a no-score visit busts and leaves
-- remaining_after = 1 in the history.
example :
    (submitVisit (initGame (some ⟨1, true, 3, 3⟩)) [] none).toOption.map
      (fun g => g.state.history.map (fun v => (v.bust, v.remaining_after)))
      = some [(true, 1)] := by decide

-- undo after a submit restores the exact pre-submit game
example :
    ((submitVisit (initGame none) [⟨20, 1⟩] none).toOption.bind
      (fun g => (undo g).toOption)) = some (initGame none) := by decide

end Logan501
